import Mathlib

/-!
Verification development for the task-triage core: a shallow embedding of the
ownership-scoped graph store (`graphrag_service.py`), the LLM response
validator and retry loop (`llm_service.py`), and the triage pipeline and
suggestion applier (`triage_service.py`), together with theorems settling the
frozen claims about this code.

Modelling conventions:
- The Memgraph store is modelled as a `Graph` structure holding node lists and
  edge lists (edges are pairs of node ids).  Each Cypher query of the source is
  translated clause by clause: a `MATCH` pattern becomes a filter over the node
  and edge lists, `CREATE` appends, `MERGE` appends conditionally, and
  `result.single()` becomes `List.head?` (node ids are unique by the schema's
  uniqueness constraint, so at most one record matches).
- Machine floats (similarity scores, embedding coordinates) are modelled as
  rationals; the cosine-similarity computation performed inside the database is
  abstracted as a scoring oracle passed to `find_similar_tasks`.
- Network services (Anthropic, Voyage) are modelled as oracles indexed by call
  number, so one run can observe different outcomes on different calls, as the
  retry loop in `triage_brain_dump` does.
- `json.dumps`/`json.loads` of the suggestion payload are treated as an exact
  round trip: `SuggestionNode` stores the structured `Payload` directly.
- Python falsiness (`a or b`, `if not x`) is modelled by the `pyOr*` helpers
  and explicit emptiness tests.
-/

namespace TaskTriage

/-- One entry of `VALID_STATUSES` / `TaskStatus.VALUES` (`llm_service.py`,
`dtos.py`): the closed status set. -/
def VALID_STATUSES : List String :=
  ["INBOX", "NEXT", "IN_PROGRESS", "WAITING", "SOMEDAY", "DONE", "ARCHIVED"]

/-- `VALID_EFFORTS` (`llm_service.py`): the closed effort set. -/
def VALID_EFFORTS : List String := ["XS", "S", "M", "L", "XL"]

/-- `VALID_PARA_BUCKETS` (`llm_service.py`); defined in the source but never
checked by the validator. -/
def VALID_PARA_BUCKETS : List String := ["PROJECT", "AREA", "RESOURCE", "ARCHIVE"]

/-- `UserNode` dataclass (`dtos.py`).  `created_at`/`preferences_json` carry no
weight in any claim and are elided. -/
structure UserNode where
  id : String
  email : String
deriving Repr, DecidableEq

/-- `TaskNode` dataclass (`dtos.py`).  Timestamps are abstract `Nat` instants;
embedding vectors are rational-coordinate lists. -/
structure TaskNode where
  id : String
  title : String
  status : String
  priority : Int
  urgency : Int
  effort : String
  created_at : Nat
  updated_at : Nat
  embedding_model : String := "voyage-3"
  description : String := ""
  next_action : Option String := none
  due_date : Option Nat := none
  energy_signal : Option String := none
  embedding : Option (List ℚ) := none
deriving Repr, DecidableEq

/-- `ProjectNode` dataclass (`dtos.py`). -/
structure ProjectNode where
  id : String
  name : String
  outcome : String
  status : String := "ACTIVE"
deriving Repr, DecidableEq

/-- `AreaNode` dataclass (`dtos.py`). -/
structure AreaNode where
  id : String
  name : String
deriving Repr, DecidableEq

/-- `TriageSessionNode` dataclass (`dtos.py`). -/
structure TriageSessionNode where
  id : String
  created_at : Nat
  input_text : String
  model : String
  prompt_version : String
deriving Repr, DecidableEq

/-- The suggestion payload dict built by `run_triage` (`triage_service.py`,
lines 73-91) and read back by `apply_suggestions` via `json.loads`.  Every
field is optional because `apply_suggestions` also processes suggestions whose
payload lacks keys (`payload.get(...)` with defaults).  A `duplicate_candidates`
entry is the pair of a task id and the similarity score plus title that the
source formats into the `reason` string. -/
structure Payload where
  raw_text : Option String := none
  action_title : Option String := none
  description : Option String := none
  status : Option String := none
  priority : Option Int := none
  urgency : Option Int := none
  effort : Option String := none
  para_bucket : Option String := none
  project_suggestions : Option (List String) := none
  area_suggestions : Option (List String) := none
  needs_clarification : Option Bool := none
  clarifying_questions : Option (List String) := none
  duplicate_candidates : Option (List (String × ℚ × String)) := none
  energy_signal : Option String := none
  next_action : Option String := none
deriving Repr, DecidableEq

/-- `SuggestionNode` dataclass (`dtos.py`).  `payload_json` is modelled
structurally as `payload` (`json.dumps`/`json.loads` treated as an exact round
trip).  `accepted_bool : Optional[bool] = None` is the tri-state acceptance
flag: `none` unset, `some true` accepted, `some false` rejected. -/
structure SuggestionNode where
  id : String
  created_at : Nat
  suggestion_type : String
  payload : Payload
  accepted_bool : Option Bool := none
deriving Repr, DecidableEq

/-- The persisted state of the Memgraph store: node lists per label and edge
lists per relationship type, each edge a `(from-id, to-id)` pair. -/
structure Graph where
  users : List UserNode := []
  tasks : List TaskNode := []
  projects : List ProjectNode := []
  areas : List AreaNode := []
  sessions : List TriageSessionNode := []
  suggestions : List SuggestionNode := []
  owns : List (String × String) := []
  produced : List (String × String) := []
  part_of : List (String × String) := []
  in_area : List (String × String) := []
deriving Repr, DecidableEq

/-- Does a `User` node with this id exist?  Models the `MATCH (u:User
\x7bid: $user_id\x7d)` clause that heads every ownership-scoped query. -/
def Graph.hasUser (g : Graph) (user_id : String) : Bool :=
  g.users.any (fun u => u.id == user_id)

-- ---------------------------------------------------------------------------
-- graphrag_service.py — Task CRUD
-- ---------------------------------------------------------------------------

/-- `create_task` (`graphrag_service.py`, lines 159-205): `MATCH (u:User)`
then `CREATE` the task node and the `OWNS` edge in one query.  When the owner
does not exist the `MATCH` yields no row, the query mutates nothing, no error
is raised, and the function still returns `task.id`. -/
def create_task (g : Graph) (user_id : String) (task : TaskNode) : Graph × String :=
  let g' :=
    if g.hasUser user_id then
      { g with tasks := g.tasks ++ [task], owns := g.owns ++ [(user_id, task.id)] }
    else g
  (g', task.id)

/-- `get_task` (`graphrag_service.py`, lines 208-226): `MATCH (u:User
\x7bid\x7d)-[:OWNS]->(t:Task \x7bid\x7d) RETURN t`, then `single()`. -/
def get_task (g : Graph) (user_id task_id : String) : Option TaskNode :=
  (g.tasks.filter (fun t =>
    t.id == task_id && g.hasUser user_id && g.owns.contains (user_id, t.id))).head?

/-- Sorting helper: insert into a list sorted by `le`. -/
def insertBy (le : α → α → Bool) (x : α) : List α → List α
  | [] => [x]
  | y :: ys => if le x y then x :: y :: ys else y :: insertBy le x ys

/-- Sorting helper standing in for the database's `ORDER BY`: a sort of the
matched rows by the comparison `le`. -/
def sortBy (le : α → α → Bool) : List α → List α
  | [] => []
  | x :: xs => insertBy le x (sortBy le xs)

/-- `list_tasks` (`graphrag_service.py`, lines 229-254): ownership-filtered
match, optional status filter, `ORDER BY t.created_at DESC`. -/
def list_tasks (g : Graph) (user_id : String) (status : Option String) : List TaskNode :=
  let rows := g.tasks.filter (fun t =>
    (match status with
     | some st => t.status == st
     | none => true)
    && g.hasUser user_id && g.owns.contains (user_id, t.id))
  sortBy (fun a b => b.created_at ≤ a.created_at) rows

-- ---------------------------------------------------------------------------
-- graphrag_service.py — Project / Area CRUD
-- ---------------------------------------------------------------------------

/-- `find_or_create_project` (`graphrag_service.py`, lines 285-329):
case-insensitive ownership-scoped lookup (`LIMIT 1`), else `CREATE` with a
fresh id.  As in `create_task`, a missing owner makes the create query a silent
no-op while the `ProjectNode` is still returned. -/
def find_or_create_project (g : Graph) (user_id name outcome new_id : String) :
    Graph × ProjectNode :=
  match (g.projects.filter (fun p =>
      p.name.toLower == name.toLower && g.hasUser user_id
        && g.owns.contains (user_id, p.id))).head? with
  | some p => (g, p)
  | none =>
    let p : ProjectNode := { id := new_id, name := name, outcome := outcome, status := "ACTIVE" }
    let g' :=
      if g.hasUser user_id then
        { g with projects := g.projects ++ [p], owns := g.owns ++ [(user_id, new_id)] }
      else g
    (g', { id := new_id, name := name, outcome := outcome })

/-- `list_projects` (`graphrag_service.py`, lines 332-351). -/
def list_projects (g : Graph) (user_id : String) : List ProjectNode :=
  g.projects.filter (fun p => g.hasUser user_id && g.owns.contains (user_id, p.id))

/-- `find_or_create_area` (`graphrag_service.py`, lines 358-390). -/
def find_or_create_area (g : Graph) (user_id name new_id : String) :
    Graph × AreaNode :=
  match (g.areas.filter (fun a =>
      a.name.toLower == name.toLower && g.hasUser user_id
        && g.owns.contains (user_id, a.id))).head? with
  | some a => (g, a)
  | none =>
    let a : AreaNode := { id := new_id, name := name }
    let g' :=
      if g.hasUser user_id then
        { g with areas := g.areas ++ [a], owns := g.owns ++ [(user_id, new_id)] }
      else g
    (g', a)

/-- `list_areas` (`graphrag_service.py`, lines 393-402). -/
def list_areas (g : Graph) (user_id : String) : List AreaNode :=
  g.areas.filter (fun a => g.hasUser user_id && g.owns.contains (user_id, a.id))

-- ---------------------------------------------------------------------------
-- graphrag_service.py — TriageSession / Suggestion CRUD
-- ---------------------------------------------------------------------------

/-- `create_triage_session` (`graphrag_service.py`, lines 409-432): same
match-then-create shape as `create_task`. -/
def create_triage_session (g : Graph) (user_id : String)
    (session_node : TriageSessionNode) : Graph × String :=
  let g' :=
    if g.hasUser user_id then
      { g with sessions := g.sessions ++ [session_node],
               owns := g.owns ++ [(user_id, session_node.id)] }
    else g
  (g', session_node.id)

/-- `get_triage_session` (`graphrag_service.py`, lines 435-457). -/
def get_triage_session (g : Graph) (user_id session_id : String) :
    Option TriageSessionNode :=
  (g.sessions.filter (fun ts =>
    ts.id == session_id && g.hasUser user_id
      && g.owns.contains (user_id, ts.id))).head?

/-- `create_suggestion` (`graphrag_service.py`, lines 464-497): `MATCH
(u)-[:OWNS]->(ts:TriageSession \x7bid\x7d)` then `CREATE` the suggestion, its
`OWNS` edge and its `PRODUCED` edge in one query. -/
def create_suggestion (g : Graph) (user_id session_id : String)
    (suggestion : SuggestionNode) : Graph × String :=
  let matched := g.hasUser user_id
    && g.sessions.any (fun ts => ts.id == session_id)
    && g.owns.contains (user_id, session_id)
  let g' :=
    if matched then
      { g with suggestions := g.suggestions ++ [suggestion],
               owns := g.owns ++ [(user_id, suggestion.id)],
               produced := g.produced ++ [(session_id, suggestion.id)] }
    else g
  (g', suggestion.id)

/-- `get_suggestions_for_session` (`graphrag_service.py`, lines 500-525):
ownership-scoped match of the session, then its `PRODUCED` suggestions,
`ORDER BY s.created_at ASC`. -/
def get_suggestions_for_session (g : Graph) (user_id session_id : String) :
    List SuggestionNode :=
  if g.hasUser user_id && g.sessions.any (fun ts => ts.id == session_id)
      && g.owns.contains (user_id, session_id) then
    sortBy (fun a b => a.created_at ≤ b.created_at)
      (g.suggestions.filter (fun s => g.produced.contains (session_id, s.id)))
  else []

/-- `update_suggestion_accepted` (`graphrag_service.py`, lines 528-545):
ownership-scoped match, `SET s.accepted_bool`, returns whether a row matched. -/
def update_suggestion_accepted (g : Graph) (user_id suggestion_id : String)
    (accepted : Bool) : Graph × Bool :=
  let matched := g.hasUser user_id && g.owns.contains (user_id, suggestion_id)
    && g.suggestions.any (fun s => s.id == suggestion_id)
  if matched then
    ({ g with suggestions := g.suggestions.map (fun s =>
        if s.id == suggestion_id then { s with accepted_bool := some accepted } else s) },
     true)
  else (g, false)

/-- `create_task_part_of_project` (`graphrag_service.py`, lines 552-563):
`MATCH` both nodes then `MERGE` the edge (idempotent). -/
def create_task_part_of_project (g : Graph) (task_id project_id : String) : Graph :=
  if g.tasks.any (fun t => t.id == task_id)
      && g.projects.any (fun p => p.id == project_id) then
    if g.part_of.contains (task_id, project_id) then g
    else { g with part_of := g.part_of ++ [(task_id, project_id)] }
  else g

/-- `create_task_in_area` (`graphrag_service.py`, lines 566-577). -/
def create_task_in_area (g : Graph) (task_id area_id : String) : Graph :=
  if g.tasks.any (fun t => t.id == task_id)
      && g.areas.any (fun a => a.id == area_id) then
    if g.in_area.contains (task_id, area_id) then g
    else { g with in_area := g.in_area ++ [(task_id, area_id)] }
  else g

-- ---------------------------------------------------------------------------
-- graphrag_service.py — vector similarity search
-- ---------------------------------------------------------------------------

/-- The `vector_search.search("task_embedding_idx", $limit, $embedding)`
procedure call (`graphrag_service.py`, line 617): the global index holds every
task that has an embedding, across all owners; the procedure yields the
`limit` highest-similarity entries.  The cosine similarity computed by the
database is abstracted as the scoring oracle `sim`. -/
def vector_search (g : Graph) (sim : TaskNode → ℚ) (limit : Nat) :
    List (TaskNode × ℚ) :=
  ((sortBy (fun a b => b.2 ≤ a.2)
      ((g.tasks.filter (fun t => t.embedding.isSome)).map (fun t => (t, sim t)))).take limit)

/-- `find_similar_tasks` (`graphrag_service.py`, lines 598-629): call the
global index with exactly `limit`, keep only rows whose node the requesting
user owns (`MATCH (u:User \x7bid\x7d)-[:OWNS]->(t)`), `ORDER BY similarity
DESC`.  There is no over-fetch and no truncation after the ownership filter. -/
def find_similar_tasks (g : Graph) (user_id : String) (sim : TaskNode → ℚ)
    (limit : Nat) : List (TaskNode × ℚ) :=
  sortBy (fun a b => b.2 ≤ a.2)
    ((vector_search g sim limit).filter (fun p =>
      g.hasUser user_id && g.owns.contains (user_id, p.1.id)))

-- ---------------------------------------------------------------------------
-- llm_service.py — response validation
-- ---------------------------------------------------------------------------

/-- One item of the parsed LLM JSON response, before validation.  A field is
`none` when the key is absent from the item dict.  The source coerces
`priority`/`urgency` with `int(...)` and the three text fields with
`str(...)`; the embedding models them at their post-coercion types (a value on
which `int(...)` itself raises surfaces through the same `ValueError` channel
as a validation failure).  Entries of the four list fields are opaque here. -/
structure RawItem where
  raw_text : Option String := none
  action_title : Option String := none
  description : Option String := none
  status : Option String := none
  priority : Option Int := none
  urgency : Option Int := none
  effort : Option String := none
  para_bucket : Option String := none
  project_suggestions : Option (List String) := none
  area_suggestions : Option (List String) := none
  needs_clarification : Option Bool := none
  clarifying_questions : Option (List String) := none
  duplicate_candidates : Option (List String) := none
  next_action : Option String := none
deriving Repr, DecidableEq

/-- The cleaned item dict built by `_validate_triage_response`
(`llm_service.py`, lines 74-89). -/
structure CleanedItem where
  raw_text : String
  action_title : String
  description : String
  status : String
  priority : Int
  urgency : Int
  effort : String
  para_bucket : String
  project_suggestions : List String
  area_suggestions : List String
  needs_clarification : Bool
  clarifying_questions : List String
  duplicate_candidates : List String
  next_action : String
deriving Repr, DecidableEq

/-- Python string slicing `s[:n]`: the first `n` characters. -/
def pyTrunc (s : String) (n : Nat) : String := String.mk (s.data.take n)

/-- The clamp `max(1, min(5, n))` of `_validate_triage_response`
(`llm_service.py`, lines 66-67). -/
def pyClamp (n : Int) : Int := max 1 (min 5 n)

/-- The required-field presence check of `_validate_triage_response`
(`llm_service.py`, lines 52-55). -/
def requiredPresent (item : RawItem) : Bool :=
  item.action_title.isSome && item.description.isSome && item.status.isSome
    && item.priority.isSome && item.urgency.isSome && item.effort.isSome

/-- The per-item body of `_validate_triage_response` (`llm_service.py`, lines
47-90), in source order: required fields, status enum, effort enum, clamp,
truncation, cleaned-item assembly.  Error payloads keep the source's message
shape (the name of the missing field is elided). -/
def validate_item (idx : Nat) (item : RawItem) : Except String CleanedItem :=
  if !requiredPresent item then
    Except.error ("Item " ++ toString idx ++ " missing required field")
  else if !(VALID_STATUSES.contains (item.status.getD "")) then
    Except.error ("Item " ++ toString idx ++ ": invalid status")
  else if !(VALID_EFFORTS.contains (item.effort.getD "")) then
    Except.error ("Item " ++ toString idx ++ ": invalid effort")
  else
    Except.ok
      { raw_text := item.raw_text.getD ""
        action_title := pyTrunc (item.action_title.getD "") 200
        description := pyTrunc (item.description.getD "") 2000
        status := item.status.getD ""
        priority := pyClamp (item.priority.getD 3)
        urgency := pyClamp (item.urgency.getD 3)
        effort := item.effort.getD ""
        para_bucket := item.para_bucket.getD "ARCHIVE"
        project_suggestions := (item.project_suggestions.getD []).take 10
        area_suggestions := (item.area_suggestions.getD []).take 10
        needs_clarification := item.needs_clarification.getD false
        clarifying_questions := item.clarifying_questions.getD []
        duplicate_candidates := item.duplicate_candidates.getD []
        next_action := pyTrunc (item.next_action.getD "") 500 }

/-- The items loop of `_validate_triage_response`: validate each item in
order, failing on the first invalid one. -/
def validate_items_from (idx : Nat) : List RawItem → Except String (List CleanedItem)
  | [] => Except.ok []
  | item :: rest => do
    let c ← validate_item idx item
    let cs ← validate_items_from (idx + 1) rest
    Except.ok (c :: cs)

/-- `_validate_triage_response` (`llm_service.py`, lines 34-92).  The argument
is `none` when the parsed JSON is not a dict with an `items` list. -/
def validate_triage_response (data : Option (List RawItem)) :
    Except String (List CleanedItem) :=
  match data with
  | none => Except.error "Response must have an items array"
  | some items => validate_items_from 0 items

-- ---------------------------------------------------------------------------
-- llm_service.py — triage_brain_dump retry loop
-- ---------------------------------------------------------------------------

/-- Python whitespace characters (the set stripped by `str.strip()`). -/
def isPyWhitespace (c : Char) : Bool :=
  c == ' ' || c == '\t' || c == '\n' || c == '\r' || c == '\x0b' || c == '\x0c'

/-- The guard `if not text or not text.strip()` (`llm_service.py`, line 111):
true exactly when the text contains no non-whitespace character. -/
def pyBlank (s : String) : Bool := s.data.all isPyWhitespace

/-- The context lists gathered by `_fetch_user_context`
(`triage_service.py`, lines 123-164): project (name, outcome) pairs, area
names, and recent (title, status) decisions. -/
structure ContextData where
  recent_projects : List (String × String) := []
  active_areas : List String := []
  recent_decisions : List (String × String) := []
deriving Repr, DecidableEq

/-- The `context_str` block of `triage_brain_dump` (`llm_service.py`, lines
114-121); Python's list rendering is abbreviated to a comma-joined form, which
no claim inspects.  `none` models `context=None` (the dict passed by
`run_triage` always has its three keys and is therefore truthy). -/
def contextBlock : Option ContextData → String
  | none => ""
  | some c =>
    "\n## User Context\n- Recent projects: "
      ++ String.intercalate ", " (c.recent_projects.map (fun p => p.1))
      ++ "\n- Active areas: " ++ String.intercalate ", " c.active_areas
      ++ "\n- Recent decisions: " ++ String.intercalate ", " (c.recent_decisions.map (fun p => p.1))
      ++ "\n"

/-- The fixed system instructions of `triage_brain_dump` (`llm_service.py`,
lines 123-136); the literal prose is abbreviated, which no claim inspects. -/
def system_prompt : String :=
  "You are a task triage assistant for Cozy Triage. Return ONLY valid JSON matching the schema."

/-- The full request of one `messages.create` call: fixed system instructions
plus the user prompt built from the raw text and the context block
(`llm_service.py`, lines 138-163; schema prose abbreviated).  It is computed
once, before the retry loop, so both attempts send the same request. -/
def mkRequest (text : String) (ctx : Option ContextData) : String :=
  system_prompt ++ "\nPlease triage this brain dump:\n\n" ++ text ++ "\n"
    ++ contextBlock ctx ++ "\nReturn a JSON object with an items array."

/-- Outcome of one network call to the model, after code-fence stripping and
`json.loads`: the body parsed to a JSON value (`parsed`), `json.loads` raised
(`unparseable`), or the call itself raised a non-`ValueError` exception
(`transportError`). -/
inductive LLMCall where
  | unparseable
  | parsed (data : Option (List RawItem))
  | transportError
deriving Repr, DecidableEq

/-- The error taxonomy surfaced by `triage_brain_dump`: blank input, invalid
JSON after both attempts, validation failure after both attempts, or an
immediately re-raised transport error.  The source suffixes the underlying
exception text onto these messages; the suffix is elided. -/
inductive TriageFailure where
  | emptyInput
  | invalidJSON
  | validationFailed
  | upstream
deriving Repr, DecidableEq

/-- `str(e)` of the exception surfaced by each `TriageFailure`, as caught by
`run_triage` (message prefixes from `llm_service.py`, lines 112, 199, 205). -/
def failureMessage : TriageFailure → String
  | TriageFailure.emptyInput => "Brain dump text cannot be empty"
  | TriageFailure.invalidJSON => "Claude returned invalid JSON after 2 attempts"
  | TriageFailure.validationFailed => "Triage response validation failed after 2 attempts"
  | TriageFailure.upstream => "Unexpected error in triage"

/-- One iteration of the `for attempt in range(2)` loop (`llm_service.py`,
lines 166-208): success, a retriable failure (`json.JSONDecodeError` or
`ValueError`), or a hard failure (any other exception, re-raised at once). -/
inductive AttemptOutcome where
  | success (items : List CleanedItem)
  | softFail (f : TriageFailure)
  | hardFail
deriving Repr

/-- Classify one call's outcome as the loop body does. -/
def runAttempt (c : LLMCall) : AttemptOutcome :=
  match c with
  | LLMCall.transportError => AttemptOutcome.hardFail
  | LLMCall.unparseable => AttemptOutcome.softFail TriageFailure.invalidJSON
  | LLMCall.parsed d =>
    match validate_triage_response d with
    | Except.ok items => AttemptOutcome.success items
    | Except.error _ => AttemptOutcome.softFail TriageFailure.validationFailed

/-- `triage_brain_dump` (`llm_service.py`, lines 95-208).  `calls req n` is
the outcome of the `n`-th network call made with request `req`.  Returns the
result together with the list of requests actually issued: the blank-input
guard fires before any call; a soft failure on attempt 0 is retried exactly
once with the same request; a second soft failure surfaces the second
failure's error. -/
def triage_brain_dump (text : String) (ctx : Option ContextData)
    (calls : String → Nat → LLMCall) :
    Except TriageFailure (List CleanedItem) × List String :=
  if pyBlank text then (Except.error TriageFailure.emptyInput, [])
  else
    let req := mkRequest text ctx
    match runAttempt (calls req 0) with
    | AttemptOutcome.success items => (Except.ok items, [req])
    | AttemptOutcome.hardFail => (Except.error TriageFailure.upstream, [req])
    | AttemptOutcome.softFail _ =>
      match runAttempt (calls req 1) with
      | AttemptOutcome.success items => (Except.ok items, [req, req])
      | AttemptOutcome.hardFail => (Except.error TriageFailure.upstream, [req, req])
      | AttemptOutcome.softFail f => (Except.error f, [req, req])

-- ---------------------------------------------------------------------------
-- triage_service.py — run_triage pipeline
-- ---------------------------------------------------------------------------

/-- The result dict returned by `run_triage` (`triage_service.py`,
lines 108-120). -/
structure TriageResult where
  session_id : String
  suggestions : List SuggestionNode
  error : Option String
deriving Repr, DecidableEq

/-- `_fetch_user_context` (`triage_service.py`, lines 123-164): recent
projects, areas and NEXT tasks, each truncated to 5.  The source catches any
store exception and degrades to empty lists; the pure store model cannot
raise, so the happy path is total here. -/
def fetch_user_context (g : Graph) (user_id : String) : ContextData :=
  { recent_projects := ((list_projects g user_id).take 5).map (fun p => (p.name, p.outcome))
    active_areas := ((list_areas g user_id).take 5).map (fun a => a.name)
    recent_decisions := ((list_tasks g user_id (some "NEXT")).take 5).map
      (fun t => (t.title, t.status)) }

/-- The payload dict built per candidate item by `run_triage`
(`triage_service.py`, lines 73-91): the cleaned item's fields plus the
duplicate-candidate list computed from the similarity search, keeping only
scores strictly above 0.85.  The `reason` string ("Similarity: ..., Title:
...") is kept structurally as the (id, score, title) triple. -/
def mkPayload (item : CleanedItem) (similar : List (TaskNode × ℚ)) : Payload :=
  { raw_text := some item.raw_text
    action_title := some item.action_title
    description := some item.description
    status := some item.status
    priority := some item.priority
    urgency := some item.urgency
    effort := some item.effort
    para_bucket := some item.para_bucket
    project_suggestions := some item.project_suggestions
    area_suggestions := some item.area_suggestions
    needs_clarification := some item.needs_clarification
    clarifying_questions := some item.clarifying_questions
    duplicate_candidates := some ((similar.filter (fun p => (17 : ℚ)/20 < p.2)).map
      (fun p => (p.1.id, p.2, p.1.title)))
    energy_signal := none
    next_action := some item.next_action }

/-- Outcome of processing one candidate item's external calls
(`triage_service.py`, lines 61-105): the embedding call succeeded with a
vector, the embedding call raised, or the `create_suggestion` store write
raised after a successful embedding.  A raised exception aborts the loop and
leaves the store untouched for that item (a failed Cypher write mutates
nothing). -/
inductive ItemOutcome where
  | ok (embedding : List ℚ)
  | embedFail (msg : String)
  | persistFail (msg : String)
deriving Repr

/-- The per-item loop of `run_triage` (`triage_service.py`, lines 60-105):
embed the title, search for similar owned tasks with limit 3, build the
payload, persist the suggestion (with `accepted_bool=False`) linked to the
session, and accumulate it.  A failure propagates out of the loop, discarding
the accumulator. -/
def triage_items_loop (user_id session_id : String) (now : Nat)
    (sug_ids : Nat → String) (itemCalls : Nat → ItemOutcome)
    (sim : List ℚ → TaskNode → ℚ) :
    Graph → Nat → List SuggestionNode → List CleanedItem →
      Graph × Except String (List SuggestionNode)
  | g, _, acc, [] => (g, Except.ok acc)
  | g, i, acc, item :: rest =>
    match itemCalls i with
    | ItemOutcome.embedFail msg => (g, Except.error msg)
    | ItemOutcome.persistFail msg => (g, Except.error msg)
    | ItemOutcome.ok emb =>
      let similar := find_similar_tasks g user_id (sim emb) 3
      let payload := mkPayload item similar
      let s : SuggestionNode :=
        { id := sug_ids i, created_at := now, suggestion_type := "triage_item",
          payload := payload, accepted_bool := some false }
      let g' := (create_suggestion g user_id session_id s).1
      triage_items_loop user_id session_id now sug_ids itemCalls sim
        g' (i + 1) (acc ++ [s]) rest

/-- `run_triage` (`triage_service.py`, lines 24-120).  Oracles: `sug_ids` the
`uuid4` stream for suggestion ids, `calls` the LLM, `itemCalls` the per-item
embedding/persist outcomes, `sim` the index's scoring of a query vector
against a task.  The whole body sits in one `try`, so every failure after the
session write is caught and returned as `\x7bsession_id, suggestions: [],
error: str(e)\x7d`. -/
def run_triage (g : Graph) (user_id brain_dump : String) (session_id : String)
    (now : Nat) (sug_ids : Nat → String) (calls : String → Nat → LLMCall)
    (itemCalls : Nat → ItemOutcome) (sim : List ℚ → TaskNode → ℚ) :
    Graph × TriageResult :=
  let session : TriageSessionNode :=
    { id := session_id, created_at := now, input_text := brain_dump,
      model := "claude-sonnet-4-6", prompt_version := "v1" }
  let g1 := (create_triage_session g user_id session).1
  let context := fetch_user_context g1 user_id
  match (triage_brain_dump brain_dump (some context) calls).1 with
  | Except.error f =>
    (g1, { session_id := session_id, suggestions := [], error := some (failureMessage f) })
  | Except.ok items =>
    match triage_items_loop user_id session_id now sug_ids itemCalls sim g1 0 [] items with
    | (g2, Except.error msg) =>
      (g2, { session_id := session_id, suggestions := [], error := some msg })
    | (g2, Except.ok sugs) =>
      (g2, { session_id := session_id, suggestions := sugs, error := none })

-- ---------------------------------------------------------------------------
-- triage_service.py — apply_suggestions
-- ---------------------------------------------------------------------------

/-- The `edited_data` dict of one decision (`triage_service.py`, line 186):
a field is `none` when the key is absent. -/
structure EditedData where
  action_title : Option String := none
  status : Option String := none
  priority : Option Int := none
  urgency : Option Int := none
  effort : Option String := none
  description : Option String := none
  next_action : Option String := none
  project_suggestions : Option (List String) := none
  area_suggestions : Option (List String) := none
deriving Repr, DecidableEq

/-- One decision dict of `apply_suggestions` (`triage_service.py`,
lines 174-175). -/
structure Decision where
  id : Option String := none
  action : Option String := none
  edited_data : EditedData := {}
deriving Repr, DecidableEq

/-- Python truthiness of `.get(...)` on a string key: `None` and `""` are
falsy. -/
def pyFalsyStr : Option String → Bool
  | none => true
  | some s => s.isEmpty

/-- Python `a or b` where `a` is an optional string: falls back when `a` is
`None` or empty. -/
def pyOrStr (a : Option String) (b : String) : String :=
  match a with
  | some s => if s.isEmpty then b else s
  | none => b

/-- Python `a or b` where `a` is an optional integer: falls back when `a` is
`None` or `0`. -/
def pyOrInt (a : Option Int) (b : Int) : Int :=
  match a with
  | some n => if n == 0 then b else n
  | none => b

/-- Python `a or b` where `a` is an optional list: falls back when `a` is
`None` or empty. -/
def pyOrList (a : Option (List String)) (b : List String) : List String :=
  match a with
  | some l => if l.isEmpty then b else l
  | none => b

/-- The `final_title` merge (`triage_service.py`, line 210). -/
def final_title (ed : EditedData) (payload : Payload) : String :=
  pyOrStr ed.action_title (payload.action_title.getD "Untitled Task")

/-- The `TaskNode(...)` construction of `apply_suggestions`
(`triage_service.py`, lines 214-228): each field is the edited value when
truthy, else the payload value, else the source's default.  `int(...)` on the
merged priority/urgency is the identity at this model's types; no clamping is
applied here. -/
def mergedTask (ed : EditedData) (payload : Payload) (task_id : String)
    (now : Nat) (embedding : List ℚ) : TaskNode :=
  { id := task_id
    title := final_title ed payload
    status := pyOrStr ed.status (payload.status.getD "INBOX")
    priority := pyOrInt ed.priority (payload.priority.getD 3)
    urgency := pyOrInt ed.urgency (payload.urgency.getD 3)
    effort := pyOrStr ed.effort (payload.effort.getD "M")
    created_at := now
    updated_at := now
    embedding_model := "voyage-3"
    description := pyOrStr ed.description (payload.description.getD "")
    next_action := some (pyOrStr ed.next_action (payload.next_action.getD ""))
    energy_signal := payload.energy_signal
    embedding := some embedding }

/-- The project-linking loop of `apply_suggestions` (`triage_service.py`,
lines 234-238).  `fresh k` models the global `uuid4` stream at position `k`;
the counter advances only when `find_or_create_project` actually created
(matching where the source calls `_new_id()`). -/
def processProjects (fresh : Nat → String) (user_id task_id : String) :
    Graph × Nat → List String → Graph × Nat
  | st, [] => st
  | (g, k), name :: rest =>
    let before := g.projects.length
    let (g1, p) := find_or_create_project g user_id name "" (fresh k)
    let k1 := if g1.projects.length == before then k else k + 1
    let g2 := create_task_part_of_project g1 task_id p.id
    processProjects fresh user_id task_id (g2, k1) rest

/-- The area-linking loop of `apply_suggestions` (`triage_service.py`,
lines 241-245). -/
def processAreas (fresh : Nat → String) (user_id task_id : String) :
    Graph × Nat → List String → Graph × Nat
  | st, [] => st
  | (g, k), name :: rest =>
    let before := g.areas.length
    let (g1, a) := find_or_create_area g user_id name (fresh k)
    let k1 := if g1.areas.length == before then k else k + 1
    let g2 := create_task_in_area g1 task_id a.id
    processAreas fresh user_id task_id (g2, k1) rest

/-- The body of the decisions loop of `apply_suggestions`
(`triage_service.py`, lines 183-245): skip decisions with a falsy id or
action, set `accepted_bool`, and on `accept` materialize the merged Task and
its project/area links.  `sug_map.get` over the dict `\x7bs.id: s\x7d` (later
entries win) is `reverse.find?`.  `json.loads(sug.payload_json)` cannot fail
in the structural payload model, so the `payload = \x7b\x7d` fallback is
unreachable here. -/
def apply_decision (embed : String → List ℚ) (fresh : Nat → String)
    (user_id : String) (sug_map : List SuggestionNode) (now : Nat)
    (st : Graph × Nat) (d : Decision) : Graph × Nat :=
  if pyFalsyStr d.id || pyFalsyStr d.action then st
  else
    let sug_id := d.id.getD ""
    let accepted := d.action.getD "" == "accept"
    let g1 := (update_suggestion_accepted st.1 user_id sug_id accepted).1
    if accepted then
      match sug_map.reverse.find? (fun s => s.id == sug_id) with
      | none => (g1, st.2)
      | some sug =>
        let payload := sug.payload
        let ed := d.edited_data
        let task_id := fresh st.2
        let emb := embed (final_title ed payload)
        let task := mergedTask ed payload task_id now emb
        let g2 := (create_task g1 user_id task).1
        let projs := pyOrList ed.project_suggestions (payload.project_suggestions.getD [])
        let st3 := processProjects fresh user_id task_id (g2, st.2 + 1) projs
        let ars := pyOrList ed.area_suggestions (payload.area_suggestions.getD [])
        processAreas fresh user_id task_id st3 ars
    else (g1, st.2)

/-- `apply_suggestions` (`triage_service.py`, lines 167-245): fetch the
session's suggestions once up front, then process the decisions in sequence.
`embed` is the Voyage oracle, `fresh` the `uuid4` stream. -/
def apply_suggestions (g : Graph) (user_id session_id : String)
    (decisions : List Decision) (embed : String → List ℚ)
    (fresh : Nat → String) (now : Nat) : Graph :=
  let all_sugs := get_suggestions_for_session g user_id session_id
  (decisions.foldl (apply_decision embed fresh user_id all_sugs now) (g, 0)).1

-- ---------------------------------------------------------------------------
-- Auxiliary predicates and the spec-side similarity search
-- ---------------------------------------------------------------------------

/-- Is this call outcome a retriable ("soft") failure of the loop body:
`json.JSONDecodeError` or `ValueError`? -/
def softFailB (c : LLMCall) : Bool :=
  match runAttempt c with
  | AttemptOutcome.softFail _ => true
  | _ => false

/-- Did this item's external calls succeed? -/
def ItemOutcome.isOk : ItemOutcome → Bool
  | ItemOutcome.ok _ => true
  | _ => false

/-- The message of a failing item outcome, `none` on success. -/
def ItemOutcome.errMsg : ItemOutcome → Option String
  | ItemOutcome.embedFail m => some m
  | ItemOutcome.persistFail m => some m
  | ItemOutcome.ok _ => none

/-- Modelled from the spec (§4.1 `similaritySearch`), for comparison only —
this operation is NOT what the source implements: "over-fetch from the index
and post-filter by ownership, then truncate to k", with over-fetch amount
`n > k`.  The source's `find_similar_tasks` instead passes `k` straight to the
index and never truncates after filtering. -/
def find_similar_tasks_overfetch (g : Graph) (user_id : String)
    (sim : TaskNode → ℚ) (n k : Nat) : List (TaskNode × ℚ) :=
  ((vector_search g sim n).filter (fun p =>
    g.hasUser user_id && g.owns.contains (user_id, p.1.id))).take k

-- ---------------------------------------------------------------------------
-- Concrete fixtures used by counterexamples and witnesses
-- ---------------------------------------------------------------------------

/-- A store with two owners and one entity of each owned kind, all owned by
`"a"`. -/
def C1graph : Graph :=
  { users := [{ id := "a", email := "a@x" }, { id := "b", email := "b@x" }]
    tasks := [{ id := "t1", title := "secret", status := "INBOX", priority := 3,
                urgency := 3, effort := "M", created_at := 0, updated_at := 0 }]
    sessions := [{ id := "ts1", created_at := 0, input_text := "dump",
                   model := "m", prompt_version := "v1" }]
    suggestions := [{ id := "sg1", created_at := 0, suggestion_type := "triage_item",
                      payload := {} }]
    owns := [("a", "t1"), ("a", "ts1"), ("a", "sg1")]
    produced := [("ts1", "sg1")] }

/-- A store holding just the owner `"u1"`. -/
def C2graph : Graph := { users := [{ id := "u1", email := "u@x" }] }

/-- A triage run over whitespace-only input. -/
def C2run : Graph × TriageResult :=
  run_triage C2graph "u1" "   " "s1" 0 (fun n => "sug" ++ toString n)
    (fun _ _ => LLMCall.parsed (some [])) (fun _ => ItemOutcome.ok [])
    (fun _ _ => 0)

/-- A stored suggestion payload with in-range priority and urgency. -/
def C3payload : Payload :=
  { action_title := some "Original Title", status := some "INBOX",
    priority := some 3, urgency := some 3, effort := some "M",
    description := some "", project_suggestions := some [],
    area_suggestions := some [], next_action := some "" }

/-- The suggestion carrying `C3payload`. -/
def C3sug : SuggestionNode :=
  { id := "sug1", created_at := 0, suggestion_type := "triage_item",
    payload := C3payload }

/-- A store with one owner, one session and one reviewable suggestion. -/
def C3graph : Graph :=
  { users := [{ id := "u1", email := "u@x" }]
    sessions := [{ id := "sess1", created_at := 0, input_text := "dump",
                   model := "m", prompt_version := "v1" }]
    suggestions := [C3sug]
    owns := [("u1", "sess1"), ("u1", "sug1")]
    produced := [("sess1", "sug1")] }

/-- An accept decision whose `edited_data` carries out-of-range priority 7 and
urgency 6. -/
def C3decision : Decision :=
  { id := some "sug1", action := some "accept",
    edited_data := { priority := some 7, urgency := some 6 } }

/-- The store after applying `C3decision`. -/
def C3result : Graph :=
  apply_suggestions C3graph "u1" "sess1" [C3decision] (fun _ => [])
    (fun n => "id" ++ toString n) 1

/-- An LLM item with valid enums and out-of-range priority/urgency. -/
def C4item : RawItem :=
  { action_title := some "Test", description := some "Test",
    status := some "INBOX", priority := some 99, urgency := some (-5),
    effort := some "M" }

/-- An LLM item with 11 clarifying questions and 11 duplicate candidates. -/
def C7item : RawItem :=
  { action_title := some "Test", description := some "Test",
    status := some "INBOX", priority := some 3, urgency := some 3,
    effort := some "M",
    clarifying_questions := some ["q1", "q2", "q3", "q4", "q5", "q6", "q7",
                                  "q8", "q9", "q10", "q11"],
    duplicate_candidates := some ["d1", "d2", "d3", "d4", "d5", "d6", "d7",
                                  "d8", "d9", "d10", "d11"] }

/-- The cleaned item the validator produces from `C7item`. -/
def C7cleaned : CleanedItem :=
  { raw_text := "", action_title := "Test", description := "Test",
    status := "INBOX", priority := 3, urgency := 3, effort := "M",
    para_bucket := "ARCHIVE", project_suggestions := [], area_suggestions := [],
    needs_clarification := false,
    clarifying_questions := ["q1", "q2", "q3", "q4", "q5", "q6", "q7",
                             "q8", "q9", "q10", "q11"],
    duplicate_candidates := ["d1", "d2", "d3", "d4", "d5", "d6", "d7",
                             "d8", "d9", "d10", "d11"],
    next_action := "" }

/-- First stubbed candidate item ("Buy milk"). -/
def C6raw1 : RawItem :=
  { raw_text := some "buy milk", action_title := some "Buy milk",
    description := some "Get milk", status := some "NEXT",
    priority := some 3, urgency := some 2, effort := some "XS" }

/-- Second stubbed candidate item ("Call mom"). -/
def C6raw2 : RawItem :=
  { raw_text := some "call mom", action_title := some "Call mom",
    description := some "Call her", status := some "INBOX",
    priority := some 2, urgency := some 3, effort := some "S" }

/-- The stubbed LLM response carrying the two items. -/
def C6data : Option (List RawItem) := some [C6raw1, C6raw2]

/-- A store holding just the owner `"u1"`. -/
def C6graph : Graph := { users := [{ id := "u1", email := "u@x" }] }

/-- A triage run with the two-item candidate-generation stub. -/
def C6run : Graph × TriageResult :=
  run_triage C6graph "u1" "Buy milk. Call mom." "sess" 5
    (fun n => "sug" ++ toString n) (fun _ _ => LLMCall.parsed C6data)
    (fun _ => ItemOutcome.ok [1]) (fun _ _ => 0)

/-- A task owned by `"A"`, present in the global index. -/
def C8taskA : TaskNode :=
  { id := "tA", title := "A task", status := "INBOX", priority := 3,
    urgency := 3, effort := "M", created_at := 0, updated_at := 0,
    embedding := some [1] }

/-- A task owned by `"B"`, present in the global index. -/
def C8taskB : TaskNode :=
  { id := "tB", title := "B task", status := "INBOX", priority := 3,
    urgency := 3, effort := "M", created_at := 0, updated_at := 0,
    embedding := some [2] }

/-- Two owners, one indexed task each; `"B"`'s task scores highest. -/
def C8graph : Graph :=
  { users := [{ id := "A", email := "a@x" }, { id := "B", email := "b@x" }]
    tasks := [C8taskA, C8taskB]
    owns := [("A", "tA"), ("B", "tB")] }

/-- A scoring oracle ranking `"B"`'s task above `"A"`'s. -/
def C8sim : TaskNode → ℚ := fun t => if t.id == "tB" then 2 else 1

/-- A task to create under a nonexistent owner. -/
def C9task : TaskNode :=
  { id := "t9", title := "x", status := "INBOX", priority := 1, urgency := 1,
    effort := "M", created_at := 0, updated_at := 0 }

/-- A session to create under a nonexistent owner. -/
def C9session : TriageSessionNode :=
  { id := "ts9", created_at := 0, input_text := "", model := "m",
    prompt_version := "v1" }

/-- A suggestion to create under a nonexistent owner. -/
def C9sug : SuggestionNode :=
  { id := "sg9", created_at := 0, suggestion_type := "triage_item", payload := {} }

/-- The cleaned item the validator produces from `C6raw1`. -/
def C6clean1 : CleanedItem :=
  { raw_text := "buy milk", action_title := "Buy milk", description := "Get milk",
    status := "NEXT", priority := 3, urgency := 2, effort := "XS",
    para_bucket := "ARCHIVE", project_suggestions := [], area_suggestions := [],
    needs_clarification := false, clarifying_questions := [],
    duplicate_candidates := [], next_action := "" }

/-- The cleaned item the validator produces from `C6raw2`. -/
def C6clean2 : CleanedItem :=
  { raw_text := "call mom", action_title := "Call mom", description := "Call her",
    status := "INBOX", priority := 2, urgency := 3, effort := "S",
    para_bucket := "ARCHIVE", project_suggestions := [], area_suggestions := [],
    needs_clarification := false, clarifying_questions := [],
    duplicate_candidates := [], next_action := "" }

-- ---------------------------------------------------------------------------
-- Helper lemmas: insertion sort
-- ---------------------------------------------------------------------------

/-- Inserting grows the length by one. -/
theorem length_insertBy (le : α → α → Bool) (x : α) :
    ∀ l : List α, (insertBy le x l).length = l.length + 1
  | [] => rfl
  | y :: ys => by
    simp only [insertBy]
    split
    · simp
    · simp [length_insertBy le x ys]

/-- Sorting preserves the length. -/
theorem length_sortBy (le : α → α → Bool) :
    ∀ l : List α, (sortBy le l).length = l.length
  | [] => rfl
  | x :: xs => by simp [sortBy, length_insertBy, length_sortBy le xs]

/-- Membership in an insertion. -/
theorem mem_insertBy {le : α → α → Bool} {x y : α} :
    ∀ l : List α, y ∈ insertBy le x l ↔ y = x ∨ y ∈ l
  | [] => by simp [insertBy]
  | z :: zs => by
    simp only [insertBy]
    split
    · simp [List.mem_cons]
    · simp only [List.mem_cons, mem_insertBy zs]
      tauto

/-- Membership is preserved by sorting. -/
theorem mem_sortBy {le : α → α → Bool} {y : α} :
    ∀ l : List α, y ∈ sortBy le l ↔ y ∈ l
  | [] => Iff.rfl
  | x :: xs => by
    simp only [sortBy, mem_insertBy, mem_sortBy xs, List.mem_cons]

/-- Inserting into a sorted list keeps it sorted, for a transitive total
comparison. -/
theorem pairwise_insertBy (le : α → α → Bool)
    (htrans : ∀ a b c, le a b = true → le b c = true → le a c = true)
    (htot : ∀ a b, le a b = true ∨ le b a = true) (x : α) :
    ∀ {l : List α}, l.Pairwise (fun a b => le a b = true) →
      (insertBy le x l).Pairwise (fun a b => le a b = true)
  | [], _ => by simp [insertBy]
  | y :: ys, h => by
    rw [List.pairwise_cons] at h
    simp only [insertBy]
    split
    · rename_i hxy
      refine List.Pairwise.cons ?_ (List.pairwise_cons.mpr h)
      intro z hz
      rcases List.mem_cons.mp hz with hzy | hz
      · rw [hzy]
        exact hxy
      · exact htrans x y z hxy (h.1 z hz)
    · rename_i hxy
      refine List.Pairwise.cons ?_ (pairwise_insertBy le htrans htot x h.2)
      intro z hz
      rcases (mem_insertBy _).mp hz with hzx | hz
      · rw [hzx]
        rcases htot x y with hxy2 | hyx
        · exact absurd hxy2 hxy
        · exact hyx
      · exact h.1 z hz

/-- The sort is sorted, for a transitive total comparison. -/
theorem pairwise_sortBy (le : α → α → Bool)
    (htrans : ∀ a b c, le a b = true → le b c = true → le a c = true)
    (htot : ∀ a b, le a b = true ∨ le b a = true) :
    ∀ l : List α, (sortBy le l).Pairwise (fun a b => le a b = true)
  | [] => List.Pairwise.nil
  | x :: xs => pairwise_insertBy le htrans htot x (pairwise_sortBy le htrans htot xs)

-- ---------------------------------------------------------------------------
-- Helper lemmas: the validator
-- ---------------------------------------------------------------------------

/-- The clamp always lands in [1, 5]. -/
theorem pyClamp_bounds (n : Int) : 1 ≤ pyClamp n ∧ pyClamp n ≤ 5 := by
  unfold pyClamp
  exact ⟨le_max_left 1 _, max_le (by norm_num) (min_le_left 5 n)⟩

/-- Truncation takes the length to the minimum with the cap. -/
theorem length_pyTrunc (s : String) (n : Nat) :
    (pyTrunc s n).length = min n s.length := by
  show (s.data.take n).length = min n s.data.length
  simp

/-- When validation of an item succeeds, all three gate checks passed and the
cleaned item is exactly the assembled dict. -/
theorem validate_item_ok_inv {idx : Nat} {item : RawItem} {c : CleanedItem}
    (h : validate_item idx item = Except.ok c) :
    requiredPresent item = true ∧
    VALID_STATUSES.contains (item.status.getD "") = true ∧
    VALID_EFFORTS.contains (item.effort.getD "") = true ∧
    c = { raw_text := item.raw_text.getD ""
          action_title := pyTrunc (item.action_title.getD "") 200
          description := pyTrunc (item.description.getD "") 2000
          status := item.status.getD ""
          priority := pyClamp (item.priority.getD 3)
          urgency := pyClamp (item.urgency.getD 3)
          effort := item.effort.getD ""
          para_bucket := item.para_bucket.getD "ARCHIVE"
          project_suggestions := (item.project_suggestions.getD []).take 10
          area_suggestions := (item.area_suggestions.getD []).take 10
          needs_clarification := item.needs_clarification.getD false
          clarifying_questions := item.clarifying_questions.getD []
          duplicate_candidates := item.duplicate_candidates.getD []
          next_action := pyTrunc (item.next_action.getD "") 500 } := by
  unfold validate_item at h
  split at h
  · simp at h
  · split at h
    · simp at h
    · split at h
      · simp at h
      · rename_i h1 h2 h3
        refine ⟨by simpa using h1, by simpa using h2, by simpa using h3, ?_⟩
        exact (Except.ok.inj h).symm

/-- When the three gate checks pass, validation succeeds with the assembled
cleaned item. -/
theorem validate_item_eq_ok {idx : Nat} {item : RawItem}
    (h1 : requiredPresent item = true)
    (h2 : VALID_STATUSES.contains (item.status.getD "") = true)
    (h3 : VALID_EFFORTS.contains (item.effort.getD "") = true) :
    validate_item idx item =
      Except.ok
        { raw_text := item.raw_text.getD ""
          action_title := pyTrunc (item.action_title.getD "") 200
          description := pyTrunc (item.description.getD "") 2000
          status := item.status.getD ""
          priority := pyClamp (item.priority.getD 3)
          urgency := pyClamp (item.urgency.getD 3)
          effort := item.effort.getD ""
          para_bucket := item.para_bucket.getD "ARCHIVE"
          project_suggestions := (item.project_suggestions.getD []).take 10
          area_suggestions := (item.area_suggestions.getD []).take 10
          needs_clarification := item.needs_clarification.getD false
          clarifying_questions := item.clarifying_questions.getD []
          duplicate_candidates := item.duplicate_candidates.getD []
          next_action := pyTrunc (item.next_action.getD "") 500 } := by
  have h2' : item.status.getD "" ∈ VALID_STATUSES := by simpa using h2
  have h3' : item.effort.getD "" ∈ VALID_EFFORTS := by simpa using h3
  unfold validate_item
  simp [h1, h2', h3']

-- ---------------------------------------------------------------------------
-- C1 — ownership isolation of the owner-scoped reads
-- ---------------------------------------------------------------------------

/-- C1: for distinct owners A ≠ B and any entity owned by A, the owner-scoped
reads `get_task`, `get_triage_session` and `get_suggestions_for_session`
called by B on that entity's id return not-found (`none` / `[]`), identical
to their result on an id that exists nowhere, and never return the entity.
Ownership is assumed functional (at most one owner per entity id), which the
create operations establish. -/
theorem C1_ownership_isolation (g : Graph) (A B eid nid : String)
    (hA : (A, eid) ∈ g.owns) (hAB : A ≠ B)
    (huniq : ∀ p ∈ g.owns, ∀ q ∈ g.owns, p.2 = q.2 → p.1 = q.1)
    (hnid : ∀ p ∈ g.owns, p.2 ≠ nid) :
    get_task g B eid = none ∧ get_triage_session g B eid = none ∧
    get_suggestions_for_session g B eid = [] ∧
    get_task g B nid = none ∧ get_triage_session g B nid = none ∧
    get_suggestions_for_session g B nid = [] := by
  have hBe : g.owns.contains (B, eid) = false := by
    by_contra hc
    rw [Bool.not_eq_false] at hc
    have hmem : (B, eid) ∈ g.owns := by simpa using hc
    exact hAB (huniq (A, eid) hA (B, eid) hmem rfl)
  have hBn : g.owns.contains (B, nid) = false := by
    by_contra hc
    rw [Bool.not_eq_false] at hc
    have hmem : (B, nid) ∈ g.owns := by simpa using hc
    exact hnid (B, nid) hmem rfl
  have htask : ∀ id, g.owns.contains (B, id) = false → get_task g B id = none := by
    intro id hid
    unfold get_task
    have hfil : g.tasks.filter (fun t =>
        t.id == id && g.hasUser B && g.owns.contains (B, t.id)) = [] := by
      rw [List.filter_eq_nil_iff]
      intro t _ htr
      simp only [Bool.and_eq_true, beq_iff_eq] at htr
      rw [htr.1.1, hid] at htr
      exact Bool.false_ne_true htr.2
    rw [hfil]
    rfl
  have hsession : ∀ id, g.owns.contains (B, id) = false →
      get_triage_session g B id = none := by
    intro id hid
    unfold get_triage_session
    have hfil : g.sessions.filter (fun ts =>
        ts.id == id && g.hasUser B && g.owns.contains (B, ts.id)) = [] := by
      rw [List.filter_eq_nil_iff]
      intro ts _ htr
      simp only [Bool.and_eq_true, beq_iff_eq] at htr
      rw [htr.1.1, hid] at htr
      exact Bool.false_ne_true htr.2
    rw [hfil]
    rfl
  have hsugs : ∀ id, g.owns.contains (B, id) = false →
      get_suggestions_for_session g B id = [] := by
    intro id hid
    have hmem : (B, id) ∉ g.owns := by simpa using hid
    unfold get_suggestions_for_session
    simp [hmem]
  exact ⟨htask eid hBe, hsession eid hBe, hsugs eid hBe,
    htask nid hBn, hsession nid hBn, hsugs nid hBn⟩

/-- Witness for C1 at the concrete store `C1graph`: owner `"b"` cannot read
owner `"a"`'s task, session, or the session's suggestions, exactly as for the
nonexistent id `"ghost"`. -/
theorem C1_witness :
    get_task C1graph "b" "t1" = none ∧ get_triage_session C1graph "b" "t1" = none ∧
    get_suggestions_for_session C1graph "b" "t1" = [] ∧
    get_task C1graph "b" "ghost" = none ∧
    get_triage_session C1graph "b" "ghost" = none ∧
    get_suggestions_for_session C1graph "b" "ghost" = [] :=
  C1_ownership_isolation C1graph "a" "b" "t1" "ghost"
    (by decide) (by decide) (by decide) (by decide)

-- ---------------------------------------------------------------------------
-- C4 — validator clamps priority/urgency, rejects invalid enums
-- ---------------------------------------------------------------------------

/-- C4: for every candidate item with the required fields present, the
validator clamps priority and urgency into [1, 5] and never rejects them for
being out of range, while a status outside the closed status set or an effort
outside the closed effort set makes validation fail with an error. -/
theorem C4_validator_clamps_and_rejects (idx : Nat) (item : RawItem)
    (hreq : requiredPresent item = true) :
    (VALID_STATUSES.contains (item.status.getD "") = true →
      VALID_EFFORTS.contains (item.effort.getD "") = true →
      ∃ c, validate_item idx item = Except.ok c ∧
        c.priority = pyClamp (item.priority.getD 3) ∧
        c.urgency = pyClamp (item.urgency.getD 3) ∧
        1 ≤ c.priority ∧ c.priority ≤ 5 ∧ 1 ≤ c.urgency ∧ c.urgency ≤ 5) ∧
    (VALID_STATUSES.contains (item.status.getD "") = false →
      ∃ e, validate_item idx item = Except.error e) ∧
    (VALID_EFFORTS.contains (item.effort.getD "") = false →
      ∃ e, validate_item idx item = Except.error e) := by
  refine ⟨fun h2 h3 => ?_, fun h2 => ?_, fun h3 => ?_⟩
  · exact ⟨_, validate_item_eq_ok hreq h2 h3, rfl, rfl,
      (pyClamp_bounds _).1, (pyClamp_bounds _).2,
      (pyClamp_bounds _).1, (pyClamp_bounds _).2⟩
  · refine ⟨"Item " ++ toString idx ++ ": invalid status", ?_⟩
    have h2' : item.status.getD "" ∉ VALID_STATUSES := by simpa using h2
    unfold validate_item
    simp [hreq, h2']
  · by_cases h2 : VALID_STATUSES.contains (item.status.getD "") = true
    · refine ⟨"Item " ++ toString idx ++ ": invalid effort", ?_⟩
      have h2' : item.status.getD "" ∈ VALID_STATUSES := by simpa using h2
      have h3' : item.effort.getD "" ∉ VALID_EFFORTS := by simpa using h3
      unfold validate_item
      simp [hreq, h2', h3']
    · refine ⟨"Item " ++ toString idx ++ ": invalid status", ?_⟩
      have h2' : item.status.getD "" ∉ VALID_STATUSES := by simpa using h2
      unfold validate_item
      simp [hreq, h2']

/-- Witness for C4: the concrete item with priority 99 and urgency -5
validates successfully, clamped to 5 and 1. -/
theorem C4_witness :
    ∃ c, validate_item 0 C4item = Except.ok c ∧ c.priority = 5 ∧ c.urgency = 1 := by
  obtain ⟨c, hc, hp, hu, -, -, -, -⟩ :=
    (C4_validator_clamps_and_rejects 0 C4item (by decide)).1 (by decide) (by decide)
  exact ⟨c, hc, by rw [hp]; decide, by rw [hu]; decide⟩

-- ---------------------------------------------------------------------------
-- C7 — which fields the validator truncates
-- ---------------------------------------------------------------------------

/-- C7 counterexample: the validator accepts an item carrying 11 clarifying
questions and 11 duplicate candidates and passes both lists through
untruncated, so the claim that all four list fields are cut to at most 10
entries is false. -/
theorem C7_counterexample :
    validate_item 0 C7item = Except.ok C7cleaned ∧
    C7cleaned.clarifying_questions.length = 11 ∧
    C7cleaned.duplicate_candidates.length = 11 ∧
    ¬ (∀ c, validate_item 0 C7item = Except.ok c →
        c.clarifying_questions.length ≤ 10 ∧ c.duplicate_candidates.length ≤ 10) := by
  refine ⟨rfl, rfl, rfl, fun h => ?_⟩
  exact absurd (h C7cleaned rfl).1 (by decide)

/-- C7 as amended: the validator truncates `action_title` to 200 characters,
`description` to 2000 and `next_action` to 500 (to exactly the cap when the
input is longer), truncates `project_suggestions` and `area_suggestions` to at
most 10 entries, and passes `clarifying_questions` and `duplicate_candidates`
through unchanged. -/
theorem C7_amended_truncation (idx : Nat) (item : RawItem) (c : CleanedItem)
    (h : validate_item idx item = Except.ok c) :
    c.action_title = pyTrunc (item.action_title.getD "") 200 ∧
    c.description = pyTrunc (item.description.getD "") 2000 ∧
    c.next_action = pyTrunc (item.next_action.getD "") 500 ∧
    c.action_title.length = min 200 (item.action_title.getD "").length ∧
    c.description.length = min 2000 (item.description.getD "").length ∧
    c.next_action.length = min 500 (item.next_action.getD "").length ∧
    c.project_suggestions = (item.project_suggestions.getD []).take 10 ∧
    c.area_suggestions = (item.area_suggestions.getD []).take 10 ∧
    c.project_suggestions.length ≤ 10 ∧
    c.area_suggestions.length ≤ 10 ∧
    c.clarifying_questions = item.clarifying_questions.getD [] ∧
    c.duplicate_candidates = item.duplicate_candidates.getD [] := by
  obtain ⟨-, -, -, rfl⟩ := validate_item_ok_inv h
  exact ⟨rfl, rfl, rfl, length_pyTrunc _ _, length_pyTrunc _ _, length_pyTrunc _ _,
    rfl, rfl, List.length_take_le _ _, List.length_take_le _ _, rfl, rfl⟩

/-- Witness for the amended C7 at the concrete item `C7item`. -/
theorem C7_witness :
    validate_item 0 C7item = Except.ok C7cleaned ∧
    (C7cleaned.action_title = pyTrunc (C7item.action_title.getD "") 200 ∧
     C7cleaned.description = pyTrunc (C7item.description.getD "") 2000 ∧
     C7cleaned.next_action = pyTrunc (C7item.next_action.getD "") 500 ∧
     C7cleaned.action_title.length = min 200 (C7item.action_title.getD "").length ∧
     C7cleaned.description.length = min 2000 (C7item.description.getD "").length ∧
     C7cleaned.next_action.length = min 500 (C7item.next_action.getD "").length ∧
     C7cleaned.project_suggestions = (C7item.project_suggestions.getD []).take 10 ∧
     C7cleaned.area_suggestions = (C7item.area_suggestions.getD []).take 10 ∧
     C7cleaned.project_suggestions.length ≤ 10 ∧
     C7cleaned.area_suggestions.length ≤ 10 ∧
     C7cleaned.clarifying_questions = C7item.clarifying_questions.getD [] ∧
     C7cleaned.duplicate_candidates = C7item.duplicate_candidates.getD []) :=
  ⟨rfl, C7_amended_truncation 0 C7item C7cleaned rfl⟩

-- ---------------------------------------------------------------------------
-- C8 — similarity search: no over-fetch, post-filter, no truncation step
-- ---------------------------------------------------------------------------

/-- C8 counterexample: owner `"A"` has a task in the global index, but with
k = 1 the index's single top candidate is owner `"B"`'s task, so the code's
fetch-exactly-k-then-filter returns nothing, while the spec's
over-fetch-then-filter-then-truncate (modelled with over-fetch 2) returns
`"A"`'s task.  The code therefore does not over-fetch. -/
theorem C8_counterexample :
    find_similar_tasks C8graph "A" C8sim 1 = [] ∧
    find_similar_tasks_overfetch C8graph "A" C8sim 2 1 = [(C8taskA, 1)] ∧
    find_similar_tasks C8graph "A" C8sim 1 ≠
      find_similar_tasks_overfetch C8graph "A" C8sim 2 1 := by
  refine ⟨rfl, rfl, ?_⟩
  decide

/-- C8 as amended: `find_similar_tasks` fetches exactly `k` candidates from
the global index and post-filters them by ownership, so it returns at most `k`
pairs, all owned by the requesting owner, ordered by descending similarity —
possibly fewer than `k` even when more owned matches sit deeper in the index
(no over-fetch, no truncation step). -/
theorem C8_amended_scoped_fetch (g : Graph) (user_id : String)
    (sim : TaskNode → ℚ) (k : Nat) :
    (find_similar_tasks g user_id sim k).length ≤ k ∧
    (find_similar_tasks g user_id sim k).all
      (fun p => g.owns.contains (user_id, p.1.id)) = true ∧
    (find_similar_tasks g user_id sim k).Pairwise (fun a b => b.2 ≤ a.2) := by
  refine ⟨?_, ?_, ?_⟩
  · unfold find_similar_tasks
    calc (sortBy _ _).length = _ := length_sortBy _ _
      _ ≤ (vector_search g sim k).length := List.length_filter_le _ _
      _ ≤ k := List.length_take_le _ _
  · rw [List.all_eq_true]
    intro p hp
    unfold find_similar_tasks at hp
    have hp' := List.mem_filter.mp ((mem_sortBy _).mp hp)
    have hand := hp'.2
    simp only [Bool.and_eq_true] at hand
    exact hand.2
  · unfold find_similar_tasks
    have h := pairwise_sortBy
      (fun a b : TaskNode × ℚ => decide (b.2 ≤ a.2))
      (fun a b c hab hbc => decide_eq_true
        (le_trans (of_decide_eq_true hbc) (of_decide_eq_true hab)))
      (fun a b => by
        rcases le_total b.2 a.2 with h | h
        · exact Or.inl (decide_eq_true h)
        · exact Or.inr (decide_eq_true h))
      ((vector_search g sim k).filter (fun p =>
        g.hasUser user_id && g.owns.contains (user_id, p.1.id)))
    exact h.imp fun hab => of_decide_eq_true hab

-- ---------------------------------------------------------------------------
-- C9 — create-owned semantics when the owner is missing
-- ---------------------------------------------------------------------------

/-- C9 counterexample: on the empty store (no owner `"nobody"` exists), all
three create operations mutate nothing, raise no error, and still return the
new entity's id — so the claim that they fail with `UpstreamStoreError` for a
nonexistent owner is false. -/
theorem C9_counterexample :
    create_task {} "nobody" C9task = ({}, "t9") ∧
    create_triage_session {} "nobody" C9session = ({}, "ts9") ∧
    create_suggestion {} "nobody" "ts9" C9sug = ({}, "sg9") ∧
    ({} : Graph).tasks = [] ∧ ({} : Graph).sessions = [] ∧
    ({} : Graph).suggestions = [] :=
  ⟨rfl, rfl, rfl, rfl, rfl, rfl⟩

/-- C9 as amended: each create operation returns the new entity's id in every
case; when the owner exists it creates the entity together with its `OWNS`
edge (and `PRODUCED` edge for suggestions) in one atomic mutation; when the
owner does not exist the store is left unchanged, without any error. -/
theorem C9_amended_create_semantics (g : Graph) (user_id : String)
    (task : TaskNode) (session : TriageSessionNode) (sid : String)
    (s : SuggestionNode) :
    (g.hasUser user_id = true →
      create_task g user_id task =
        ({ g with tasks := g.tasks ++ [task],
                  owns := g.owns ++ [(user_id, task.id)] }, task.id) ∧
      create_triage_session g user_id session =
        ({ g with sessions := g.sessions ++ [session],
                  owns := g.owns ++ [(user_id, session.id)] }, session.id) ∧
      (g.sessions.any (fun ts => ts.id == sid) = true →
        g.owns.contains (user_id, sid) = true →
        create_suggestion g user_id sid s =
          ({ g with suggestions := g.suggestions ++ [s],
                    owns := g.owns ++ [(user_id, s.id)],
                    produced := g.produced ++ [(sid, s.id)] }, s.id))) ∧
    (g.hasUser user_id = false →
      create_task g user_id task = (g, task.id) ∧
      create_triage_session g user_id session = (g, session.id) ∧
      create_suggestion g user_id sid s = (g, s.id)) := by
  constructor
  · intro hu
    refine ⟨?_, ?_, fun hs ho => ?_⟩
    · unfold create_task
      rw [if_pos hu]
    · unfold create_triage_session
      rw [if_pos hu]
    · have ho' : (user_id, sid) ∈ g.owns := by simpa using ho
      unfold create_suggestion
      simp [hu, hs, ho']
  · intro hu
    refine ⟨?_, ?_, ?_⟩
    · unfold create_task
      rw [if_neg (by simp [hu])]
    · unfold create_triage_session
      rw [if_neg (by simp [hu])]
    · unfold create_suggestion
      simp [hu]

/-- Witness for the amended C9: creating under the existing owner `"u1"` of
`C3graph` persists entity plus edges atomically; creating under the missing
owner of the empty store changes nothing yet returns the id. -/
theorem C9_witness :
    create_task C3graph "u1" C9task =
      ({ C3graph with tasks := C3graph.tasks ++ [C9task],
                      owns := C3graph.owns ++ [("u1", "t9")] }, "t9") ∧
    create_suggestion C3graph "u1" "sess1" C9sug =
      ({ C3graph with suggestions := C3graph.suggestions ++ [C9sug],
                      owns := C3graph.owns ++ [("u1", "sg9")],
                      produced := C3graph.produced ++ [("sess1", "sg9")] }, "sg9") ∧
    create_task {} "nobody" C9task = ({}, "t9") := by
  have h := C9_amended_create_semantics C3graph "u1" C9task C9session "sess1" C9sug
  have h2 := C9_amended_create_semantics {} "nobody" C9task C9session "ts9" C9sug
  exact ⟨(h.1 (by decide)).1, (h.1 (by decide)).2.2 (by decide) (by decide),
    (h2.2 (by decide)).1⟩

-- ---------------------------------------------------------------------------
-- C5 — exactly one retry with the same request
-- ---------------------------------------------------------------------------

/-- A soft-failing call yields a softFail outcome whose error is one of the
two retriable kinds. -/
theorem softFailB_spec {c : LLMCall} (h : softFailB c = true) :
    ∃ f, runAttempt c = AttemptOutcome.softFail f ∧
      (f = TriageFailure.invalidJSON ∨ f = TriageFailure.validationFailed) := by
  cases c with
  | transportError => simp [softFailB, runAttempt] at h
  | unparseable => exact ⟨_, rfl, Or.inl rfl⟩
  | parsed d =>
    cases hv : validate_triage_response d with
    | ok items =>
      rw [softFailB, runAttempt, hv] at h
      simp at h
    | error e =>
      refine ⟨TriageFailure.validationFailed, ?_, Or.inr rfl⟩
      rw [runAttempt, hv]

/-- C5: when both network attempts fail to parse or to validate, the triage
call surfaces the validation (or JSON-parse) error and the requests issued
are exactly two copies of the same request — never one or three attempts,
and never a partial result. -/
theorem C5_retry_exactly_once (text : String) (ctx : Option ContextData)
    (calls : String → Nat → LLMCall)
    (hblank : pyBlank text = false)
    (h0 : softFailB (calls (mkRequest text ctx) 0) = true)
    (h1 : softFailB (calls (mkRequest text ctx) 1) = true) :
    (∃ f, (triage_brain_dump text ctx calls).1 = Except.error f ∧
      (f = TriageFailure.invalidJSON ∨ f = TriageFailure.validationFailed)) ∧
    (triage_brain_dump text ctx calls).2 =
      [mkRequest text ctx, mkRequest text ctx] := by
  obtain ⟨f0, hf0, -⟩ := softFailB_spec h0
  obtain ⟨f1, hf1, hf1k⟩ := softFailB_spec h1
  have key : triage_brain_dump text ctx calls =
      (Except.error f1, [mkRequest text ctx, mkRequest text ctx]) := by
    unfold triage_brain_dump
    rw [if_neg (by simp [hblank])]
    simp only [hf0, hf1]
  rw [key]
  exact ⟨⟨f1, rfl, hf1k⟩, rfl⟩

/-- Witness for C5: an LLM stub that is unparsable on every call makes triage
fail with the JSON error after exactly the two identical requests. -/
theorem C5_witness :
    (∃ f, (triage_brain_dump "Buy milk. Call mom." none
        (fun _ _ => LLMCall.unparseable)).1 = Except.error f ∧
      (f = TriageFailure.invalidJSON ∨ f = TriageFailure.validationFailed)) ∧
    (triage_brain_dump "Buy milk. Call mom." none
        (fun _ _ => LLMCall.unparseable)).2 =
      [mkRequest "Buy milk. Call mom." none, mkRequest "Buy milk. Call mom." none] :=
  C5_retry_exactly_once "Buy milk. Call mom." none (fun _ _ => LLMCall.unparseable)
    (by decide) (by decide) (by decide)

-- ---------------------------------------------------------------------------
-- Helper lemmas: the pipeline loop
-- ---------------------------------------------------------------------------

/-- Membership in the edge list survives appending. -/
theorem contains_append_left {l l' : List (String × String)} {p : String × String}
    (h : l.contains p = true) : (l ++ l').contains p = true := by
  have hm : p ∈ l := by simpa using h
  simpa using List.mem_append_left l' hm

/-- When owner and session are in place, `create_suggestion` appends the node
and both its edges in one mutation and returns the id. -/
theorem create_suggestion_matched {g : Graph} {user_id session_id : String}
    (hu : g.hasUser user_id = true)
    (hs : g.sessions.any (fun ts => ts.id == session_id) = true)
    (ho : g.owns.contains (user_id, session_id) = true) (s : SuggestionNode) :
    create_suggestion g user_id session_id s =
      ({ g with suggestions := g.suggestions ++ [s],
                owns := g.owns ++ [(user_id, s.id)],
                produced := g.produced ++ [(session_id, s.id)] }, s.id) := by
  have ho' : (user_id, session_id) ∈ g.owns := by simpa using ho
  unfold create_suggestion
  simp [hu, hs, ho']

/-- When the owner exists, `create_triage_session` appends the session node
and its `OWNS` edge in one mutation and returns the id. -/
theorem create_triage_session_matched {g : Graph} {user_id : String}
    (hu : g.hasUser user_id = true) (sn : TriageSessionNode) :
    create_triage_session g user_id sn =
      ({ g with sessions := g.sessions ++ [sn],
                owns := g.owns ++ [(user_id, sn.id)] }, sn.id) := by
  unfold create_triage_session
  rw [if_pos hu]

/-- The user, session and ownership edge needed by `create_suggestion` are
still in place after a `create_suggestion`. -/
theorem ready_after_create_suggestion {g : Graph} {user_id session_id : String}
    (hu : g.hasUser user_id = true)
    (hs : g.sessions.any (fun ts => ts.id == session_id) = true)
    (ho : g.owns.contains (user_id, session_id) = true) (s : SuggestionNode) :
    (create_suggestion g user_id session_id s).1.hasUser user_id = true ∧
    (create_suggestion g user_id session_id s).1.sessions.any
      (fun ts => ts.id == session_id) = true ∧
    (create_suggestion g user_id session_id s).1.owns.contains
      (user_id, session_id) = true := by
  rw [create_suggestion_matched hu hs ho]
  exact ⟨hu, hs, contains_append_left ho⟩

/-- A matching `create_suggestion` appends exactly the new node to the
suggestion list and leaves the session list unchanged. -/
theorem create_suggestion_fst_stats {g : Graph} {user_id session_id : String}
    (hu : g.hasUser user_id = true)
    (hs : g.sessions.any (fun ts => ts.id == session_id) = true)
    (ho : g.owns.contains (user_id, session_id) = true) (s : SuggestionNode) :
    (create_suggestion g user_id session_id s).1.suggestions =
      g.suggestions ++ [s] ∧
    (create_suggestion g user_id session_id s).1.sessions = g.sessions := by
  rw [create_suggestion_matched hu hs ho]
  exact ⟨rfl, rfl⟩

/-- When every item's external calls succeed and the session is in place, the
per-item loop persists exactly one suggestion per item — each linked to the
session via `PRODUCED` and carrying `accepted_bool = some false` — and
returns them all. -/
theorem triage_items_loop_ok (user_id session_id : String) (now : Nat)
    (sug_ids : Nat → String) (vecs : Nat → List ℚ) (sim : List ℚ → TaskNode → ℚ) :
    ∀ (items : List CleanedItem) (g : Graph) (i : Nat) (acc : List SuggestionNode),
      g.hasUser user_id = true →
      g.sessions.any (fun ts => ts.id == session_id) = true →
      g.owns.contains (user_id, session_id) = true →
      ∃ newSugs : List SuggestionNode,
        triage_items_loop user_id session_id now sug_ids
            (fun n => ItemOutcome.ok (vecs n)) sim g i acc items =
          ({ g with suggestions := g.suggestions ++ newSugs,
                    owns := g.owns ++ newSugs.map (fun s => (user_id, s.id)),
                    produced := g.produced ++ newSugs.map (fun s => (session_id, s.id)) },
           Except.ok (acc ++ newSugs)) ∧
        newSugs.length = items.length ∧
        newSugs.map (fun s => s.accepted_bool) = items.map (fun _ => some false)
  | [], g, i, acc, hu, hs, ho => by
    refine ⟨[], ?_, rfl, rfl⟩
    simp [triage_items_loop]
  | item :: rest, g, i, acc, hu, hs, ho => by
    obtain ⟨ns, hloop, hlen, hmap⟩ :=
      triage_items_loop_ok user_id session_id now sug_ids vecs sim rest
        ((create_suggestion g user_id session_id
          { id := sug_ids i, created_at := now, suggestion_type := "triage_item",
            payload := mkPayload item (find_similar_tasks g user_id (sim (vecs i)) 3),
            accepted_bool := some false }).1)
        (i + 1)
        (acc ++ [{ id := sug_ids i, created_at := now, suggestion_type := "triage_item",
                   payload := mkPayload item (find_similar_tasks g user_id (sim (vecs i)) 3),
                   accepted_bool := some false }])
        (ready_after_create_suggestion hu hs ho _).1
        (ready_after_create_suggestion hu hs ho _).2.1
        (ready_after_create_suggestion hu hs ho _).2.2
    refine ⟨{ id := sug_ids i, created_at := now, suggestion_type := "triage_item",
              payload := mkPayload item (find_similar_tasks g user_id (sim (vecs i)) 3),
              accepted_bool := some false } :: ns, ?_, by simp [hlen], by simp [hmap]⟩
    have hstep : triage_items_loop user_id session_id now sug_ids
        (fun n => ItemOutcome.ok (vecs n)) sim g i acc (item :: rest) =
        triage_items_loop user_id session_id now sug_ids
          (fun n => ItemOutcome.ok (vecs n)) sim
          ((create_suggestion g user_id session_id
            { id := sug_ids i, created_at := now, suggestion_type := "triage_item",
              payload := mkPayload item (find_similar_tasks g user_id (sim (vecs i)) 3),
              accepted_bool := some false }).1)
          (i + 1)
          (acc ++ [{ id := sug_ids i, created_at := now, suggestion_type := "triage_item",
                     payload := mkPayload item (find_similar_tasks g user_id (sim (vecs i)) 3),
                     accepted_bool := some false }]) rest := rfl
    rw [hstep, hloop, create_suggestion_matched hu hs ho]
    simp [List.append_assoc]

/-- When the items up to index `n` succeed and item `n`'s embedding or persist
call raises, the loop aborts with that error message, keeping the `n`
suggestions already persisted and touching nothing else. -/
theorem triage_items_loop_fail (user_id session_id : String) (now : Nat)
    (sug_ids : Nat → String) (itemCalls : Nat → ItemOutcome)
    (sim : List ℚ → TaskNode → ℚ) :
    ∀ (items : List CleanedItem) (n : Nat) (g : Graph) (i : Nat)
      (acc : List SuggestionNode) (msg : String),
      g.hasUser user_id = true →
      g.sessions.any (fun ts => ts.id == session_id) = true →
      g.owns.contains (user_id, session_id) = true →
      (∀ j, j < n → (itemCalls (i + j)).isOk = true) →
      ((itemCalls (i + n)).errMsg = some msg) →
      n < items.length →
      ∃ (g' : Graph) (pre : List SuggestionNode),
        triage_items_loop user_id session_id now sug_ids itemCalls sim g i acc items =
          (g', Except.error msg) ∧
        g'.suggestions = g.suggestions ++ pre ∧
        pre.length = n ∧
        g'.sessions = g.sessions
  | [], n, g, i, acc, msg, hu, hs, ho, hok, hfail, hn => absurd hn (by simp)
  | item :: rest, 0, g, i, acc, msg, hu, hs, ho, hok, hfail, hn => by
    cases hcall : itemCalls (i + 0) with
    | ok e =>
      rw [hcall] at hfail
      simp [ItemOutcome.errMsg] at hfail
    | embedFail m =>
      rw [hcall] at hfail
      have hm : m = msg := by simpa [ItemOutcome.errMsg] using hfail
      subst hm
      have hcall' : itemCalls i = ItemOutcome.embedFail m := by simpa using hcall
      refine ⟨g, [], ?_, by simp, rfl, rfl⟩
      simp [triage_items_loop, hcall']
    | persistFail m =>
      rw [hcall] at hfail
      have hm : m = msg := by simpa [ItemOutcome.errMsg] using hfail
      subst hm
      have hcall' : itemCalls i = ItemOutcome.persistFail m := by simpa using hcall
      refine ⟨g, [], ?_, by simp, rfl, rfl⟩
      simp [triage_items_loop, hcall']
  | item :: rest, Nat.succ m, g, i, acc, msg, hu, hs, ho, hok, hfail, hn => by
    have h0 : (itemCalls i).isOk = true := hok 0 (Nat.succ_pos m)
    cases hcall : itemCalls i with
    | embedFail m' =>
      rw [hcall] at h0
      simp [ItemOutcome.isOk] at h0
    | persistFail m' =>
      rw [hcall] at h0
      simp [ItemOutcome.isOk] at h0
    | ok e =>
      have hok' : ∀ j, j < m → (itemCalls (i + 1 + j)).isOk = true := by
        intro j hj
        have hidx : i + 1 + j = i + (j + 1) := by omega
        rw [hidx]
        exact hok (j + 1) (by omega)
      have hfail' : (itemCalls (i + 1 + m)).errMsg = some msg := by
        have hidx : i + 1 + m = i + (m + 1) := by omega
        rw [hidx]
        exact hfail
      have hm' : m < rest.length := by
        have := hn
        simp only [List.length_cons] at this
        omega
      obtain ⟨g', pre, hloop, hsug, hlen, hsess⟩ :=
        triage_items_loop_fail user_id session_id now sug_ids itemCalls sim rest m
          ((create_suggestion g user_id session_id
            { id := sug_ids i, created_at := now, suggestion_type := "triage_item",
              payload := mkPayload item (find_similar_tasks g user_id (sim e) 3),
              accepted_bool := some false }).1)
          (i + 1)
          (acc ++ [{ id := sug_ids i, created_at := now, suggestion_type := "triage_item",
                     payload := mkPayload item (find_similar_tasks g user_id (sim e) 3),
                     accepted_bool := some false }])
          msg
          (ready_after_create_suggestion hu hs ho _).1
          (ready_after_create_suggestion hu hs ho _).2.1
          (ready_after_create_suggestion hu hs ho _).2.2
          hok' hfail' hm'
      obtain ⟨hcs, hcsess⟩ := create_suggestion_fst_stats hu hs ho
        { id := sug_ids i, created_at := now, suggestion_type := "triage_item",
          payload := mkPayload item (find_similar_tasks g user_id (sim e) 3),
          accepted_bool := some false }
      refine ⟨g', { id := sug_ids i, created_at := now, suggestion_type := "triage_item",
                    payload := mkPayload item (find_similar_tasks g user_id (sim e) 3),
                    accepted_bool := some false } :: pre, ?_, ?_, by simp [hlen], ?_⟩
      · have hstep : triage_items_loop user_id session_id now sug_ids itemCalls sim
            g i acc (item :: rest) =
            triage_items_loop user_id session_id now sug_ids itemCalls sim
              ((create_suggestion g user_id session_id
                { id := sug_ids i, created_at := now, suggestion_type := "triage_item",
                  payload := mkPayload item (find_similar_tasks g user_id (sim e) 3),
                  accepted_bool := some false }).1)
              (i + 1)
              (acc ++ [{ id := sug_ids i, created_at := now,
                         suggestion_type := "triage_item",
                         payload := mkPayload item (find_similar_tasks g user_id (sim e) 3),
                         accepted_bool := some false }]) rest := by
          simp only [triage_items_loop, hcall]
        rw [hstep, hloop]
      · rw [hsug, hcs]
        simp
      · rw [hsess, hcsess]

-- ---------------------------------------------------------------------------
-- C2 — blank input: rejected before the LLM call, but the session IS created
-- ---------------------------------------------------------------------------

/-- C2 counterexample: running triage on the whitespace-only input `"   "`
does fail with the empty-input error before any LLM call, but the pipeline
creates the TriageSession first, so a session record IS persisted — refuting
the claim that no TriageSession record is created by the run. -/
theorem C2_counterexample :
    C2run.2.error = some (failureMessage TriageFailure.emptyInput) ∧
    C2graph.sessions = [] ∧
    C2run.1.sessions.map (fun s => s.id) = ["s1"] ∧
    ¬ (C2run.1.sessions = []) := by
  refine ⟨rfl, rfl, rfl, ?_⟩
  decide

/-- C2 as amended: for whitespace-only input the LLM client raises
`EmptyInputError` before issuing any network request (zero requests made),
and `run_triage` — which has already persisted the TriageSession — catches it
and returns `\x7bsession_id, suggestions: [], error\x7d`; the session record
remains in the store. -/
theorem C2_blank_input (g : Graph) (user_id text session_id : String)
    (now : Nat) (sug_ids : Nat → String) (calls : String → Nat → LLMCall)
    (itemCalls : Nat → ItemOutcome) (sim : List ℚ → TaskNode → ℚ)
    (ctx : Option ContextData)
    (hblank : pyBlank text = true)
    (huser : g.hasUser user_id = true) :
    triage_brain_dump text ctx calls =
      (Except.error TriageFailure.emptyInput, []) ∧
    (run_triage g user_id text session_id now sug_ids calls itemCalls sim).2 =
      { session_id := session_id, suggestions := [],
        error := some (failureMessage TriageFailure.emptyInput) } ∧
    (run_triage g user_id text session_id now sug_ids calls itemCalls sim).1.sessions =
      g.sessions ++
        [{ id := session_id, created_at := now, input_text := text,
           model := "claude-sonnet-4-6", prompt_version := "v1" }] := by
  have htbd : ∀ c : Option ContextData, triage_brain_dump text c calls =
      (Except.error TriageFailure.emptyInput, []) := by
    intro c
    unfold triage_brain_dump
    rw [if_pos hblank]
  have hrun : run_triage g user_id text session_id now sug_ids calls itemCalls sim =
      ((create_triage_session g user_id
          { id := session_id, created_at := now, input_text := text,
            model := "claude-sonnet-4-6", prompt_version := "v1" }).1,
       { session_id := session_id, suggestions := [],
         error := some (failureMessage TriageFailure.emptyInput) }) := by
    unfold run_triage
    simp only [htbd]
  refine ⟨htbd ctx, ?_, ?_⟩
  · rw [hrun]
  · rw [hrun]
    unfold create_triage_session
    rw [if_pos huser]

/-- Witness for the amended C2 at the concrete run `C2run`. -/
theorem C2_witness :
    triage_brain_dump "   " none (fun _ _ => LLMCall.parsed (some [])) =
      (Except.error TriageFailure.emptyInput, []) ∧
    C2run.2 = { session_id := "s1", suggestions := [],
                error := some (failureMessage TriageFailure.emptyInput) } ∧
    C2run.1.sessions = C2graph.sessions ++
      [{ id := "s1", created_at := 0, input_text := "   ",
         model := "claude-sonnet-4-6", prompt_version := "v1" }] :=
  C2_blank_input C2graph "u1" "   " "s1" 0 (fun n => "sug" ++ toString n)
    (fun _ _ => LLMCall.parsed (some [])) (fun _ => ItemOutcome.ok [])
    (fun _ _ => 0) none (by decide) (by decide)

-- ---------------------------------------------------------------------------
-- C3 — apply_suggestions persists edited out-of-range priority/urgency
-- ---------------------------------------------------------------------------

/-- C3 counterexample: accepting a suggestion whose `edited_data` carries
priority 7 and urgency 6 persists a Task with exactly those out-of-range
values — `apply_suggestions` applies no clamp — refuting the claim that every
Task it materializes has priority and urgency in [1, 5]. -/
theorem C3_counterexample :
    C3result.tasks.map (fun t => (t.priority, t.urgency)) = [(7, 6)] ∧
    C3result.suggestions.map (fun s => s.accepted_bool) = [some true] ∧
    ¬ (∀ t ∈ C3result.tasks,
        1 ≤ t.priority ∧ t.priority ≤ 5 ∧ 1 ≤ t.urgency ∧ t.urgency ≤ 5) := by
  refine ⟨rfl, rfl, ?_⟩
  decide

/-- C3 as amended: priority and urgency are clamped only where candidates are
produced (the LLM validator); `apply_suggestions` persists the merged values
without clamping, so a Task materialized from a validated payload whose
`edited_data` leaves priority and urgency unedited carries the validator's
values and stays in [1, 5], while edited values pass through unchecked (see
the counterexample). -/
theorem C3_amended_no_clamp_in_apply (idx : Nat) (item : RawItem)
    (c : CleanedItem) (similar : List (TaskNode × ℚ)) (ed : EditedData)
    (task_id : String) (now : Nat) (emb : List ℚ)
    (hok : validate_item idx item = Except.ok c)
    (hp : ed.priority = none) (hu : ed.urgency = none) :
    (mergedTask ed (mkPayload c similar) task_id now emb).priority = c.priority ∧
    (mergedTask ed (mkPayload c similar) task_id now emb).urgency = c.urgency ∧
    1 ≤ (mergedTask ed (mkPayload c similar) task_id now emb).priority ∧
    (mergedTask ed (mkPayload c similar) task_id now emb).priority ≤ 5 ∧
    1 ≤ (mergedTask ed (mkPayload c similar) task_id now emb).urgency ∧
    (mergedTask ed (mkPayload c similar) task_id now emb).urgency ≤ 5 := by
  obtain ⟨-, -, -, rfl⟩ := validate_item_ok_inv hok
  refine ⟨?_, ?_, ?_, ?_, ?_, ?_⟩
  · simp [mergedTask, mkPayload, pyOrInt, hp]
  · simp [mergedTask, mkPayload, pyOrInt, hu]
  · simpa [mergedTask, mkPayload, pyOrInt, hp] using
      (pyClamp_bounds (item.priority.getD 3)).1
  · simpa [mergedTask, mkPayload, pyOrInt, hp] using
      (pyClamp_bounds (item.priority.getD 3)).2
  · simpa [mergedTask, mkPayload, pyOrInt, hu] using
      (pyClamp_bounds (item.urgency.getD 3)).1
  · simpa [mergedTask, mkPayload, pyOrInt, hu] using
      (pyClamp_bounds (item.urgency.getD 3)).2

/-- Witness for the amended C3: the validated "Buy milk" item, applied with
no priority/urgency edits, materializes a task with the validator's in-range
values. -/
theorem C3_witness :
    (mergedTask {} (mkPayload C6clean1 []) "t" 0 []).priority = C6clean1.priority ∧
    (mergedTask {} (mkPayload C6clean1 []) "t" 0 []).urgency = C6clean1.urgency ∧
    1 ≤ (mergedTask {} (mkPayload C6clean1 []) "t" 0 []).priority ∧
    (mergedTask {} (mkPayload C6clean1 []) "t" 0 []).priority ≤ 5 ∧
    1 ≤ (mergedTask {} (mkPayload C6clean1 []) "t" 0 []).urgency ∧
    (mergedTask {} (mkPayload C6clean1 []) "t" 0 []).urgency ≤ 5 :=
  C3_amended_no_clamp_in_apply 0 C6raw1 C6clean1 [] {} "t" 0 [] rfl rfl rfl

-- ---------------------------------------------------------------------------
-- C6 — two-item run: two PRODUCED suggestions, error null, flag set to False
-- ---------------------------------------------------------------------------

/-- C6 counterexample: the two-item run persists exactly two suggestions
linked via `PRODUCED` with `error = none`, but each has `accepted_bool`
explicitly set to `some false` — the same value `apply_suggestions` writes
for a rejected suggestion — not the unset tri-state `none`, refuting the
"acceptance unset" part of the claim. -/
theorem C6_counterexample :
    C6run.2.error = none ∧
    C6run.2.suggestions.map (fun s => s.accepted_bool) = [some false, some false] ∧
    C6run.1.produced = [("sess", "sug0"), ("sess", "sug1")] ∧
    ¬ (∀ s ∈ C6run.2.suggestions, s.accepted_bool = none) := by
  refine ⟨rfl, rfl, rfl, ?_⟩
  decide

/-- C6 as amended: a triage run whose candidate generation returns two items
persists exactly two Suggestion nodes, linked to the session via `PRODUCED`
and owned by the user, and returns them with `error = none` — each with
`accepted_bool` explicitly set to `some false` ("not accepted"), not left
unset. -/
theorem C6_two_item_run (g : Graph) (user_id text session_id : String)
    (now : Nat) (sug_ids : Nat → String) (calls : String → Nat → LLMCall)
    (itemCalls : Nat → ItemOutcome) (sim : List ℚ → TaskNode → ℚ)
    (data : Option (List RawItem)) (c1 c2 : CleanedItem) (vecs : Nat → List ℚ)
    (hblank : pyBlank text = false)
    (huser : g.hasUser user_id = true)
    (hcalls : calls = fun _ _ => LLMCall.parsed data)
    (hval : validate_triage_response data = Except.ok [c1, c2])
    (hitems : itemCalls = fun n => ItemOutcome.ok (vecs n)) :
    (run_triage g user_id text session_id now sug_ids calls itemCalls sim).2.error
      = none ∧
    (run_triage g user_id text session_id now sug_ids calls itemCalls
        sim).2.session_id = session_id ∧
    (run_triage g user_id text session_id now sug_ids calls itemCalls
        sim).2.suggestions.length = 2 ∧
    (run_triage g user_id text session_id now sug_ids calls itemCalls
        sim).2.suggestions.map (fun s => s.accepted_bool)
      = [some false, some false] ∧
    (run_triage g user_id text session_id now sug_ids calls itemCalls
        sim).1.suggestions =
      g.suggestions ++
        (run_triage g user_id text session_id now sug_ids calls itemCalls
          sim).2.suggestions ∧
    (run_triage g user_id text session_id now sug_ids calls itemCalls
        sim).1.produced =
      g.produced ++
        ((run_triage g user_id text session_id now sug_ids calls itemCalls
          sim).2.suggestions.map (fun s => (session_id, s.id))) := by
  subst hcalls
  subst hitems
  have htbd : ∀ c : Option ContextData,
      (triage_brain_dump text c (fun _ _ => LLMCall.parsed data)).1 =
        Except.ok [c1, c2] := by
    intro c
    unfold triage_brain_dump
    rw [if_neg (by simp [hblank])]
    simp [runAttempt, hval]
  obtain ⟨ns, hloop, hlen, hmap⟩ :=
    triage_items_loop_ok user_id session_id now sug_ids vecs sim [c1, c2]
      ((create_triage_session g user_id
        { id := session_id, created_at := now, input_text := text,
          model := "claude-sonnet-4-6", prompt_version := "v1" }).1)
      0 []
      (by rw [create_triage_session_matched huser]; exact huser)
      (by rw [create_triage_session_matched huser]; simp)
      (by rw [create_triage_session_matched huser]; simp)
  have hrun2 : (run_triage g user_id text session_id now sug_ids
      (fun _ _ => LLMCall.parsed data) (fun n => ItemOutcome.ok (vecs n)) sim).2 =
      { session_id := session_id, suggestions := [] ++ ns, error := none } := by
    unfold run_triage
    simp only [htbd, hloop]
  have hrun1sug : (run_triage g user_id text session_id now sug_ids
      (fun _ _ => LLMCall.parsed data) (fun n => ItemOutcome.ok (vecs n))
        sim).1.suggestions =
      (create_triage_session g user_id
        { id := session_id, created_at := now, input_text := text,
          model := "claude-sonnet-4-6", prompt_version := "v1" }).1.suggestions
        ++ ns := by
    unfold run_triage
    simp only [htbd, hloop]
  have hrun1prod : (run_triage g user_id text session_id now sug_ids
      (fun _ _ => LLMCall.parsed data) (fun n => ItemOutcome.ok (vecs n))
        sim).1.produced =
      (create_triage_session g user_id
        { id := session_id, created_at := now, input_text := text,
          model := "claude-sonnet-4-6", prompt_version := "v1" }).1.produced
        ++ ns.map (fun s => (session_id, s.id)) := by
    unfold run_triage
    simp only [htbd, hloop]
  refine ⟨by rw [hrun2], by rw [hrun2], ?_, ?_, ?_, ?_⟩
  · rw [hrun2]
    simpa using hlen
  · rw [hrun2]
    simpa using hmap
  · rw [hrun1sug, hrun2, create_triage_session_matched huser]
    simp
  · rw [hrun1prod, hrun2, create_triage_session_matched huser]
    simp

/-- Witness for the amended C6 at the concrete two-item run `C6run`. -/
theorem C6_witness :
    C6run.2.error = none ∧
    C6run.2.session_id = "sess" ∧
    C6run.2.suggestions.length = 2 ∧
    C6run.2.suggestions.map (fun s => s.accepted_bool) = [some false, some false] ∧
    C6run.1.suggestions = C6graph.suggestions ++ C6run.2.suggestions ∧
    C6run.1.produced = C6graph.produced ++
      (C6run.2.suggestions.map (fun s => ("sess", s.id))) :=
  C6_two_item_run C6graph "u1" "Buy milk. Call mom." "sess" 5
    (fun n => "sug" ++ toString n) (fun _ _ => LLMCall.parsed C6data)
    (fun _ => ItemOutcome.ok [1]) (fun _ _ => 0) C6data C6clean1 C6clean2
    (fun _ => [1]) (by decide) (by decide) rfl rfl rfl

-- ---------------------------------------------------------------------------
-- C10 — run_triage returns a structured error; earlier suggestions survive
-- ---------------------------------------------------------------------------

/-- C10: `run_triage` never raises — when the first `n` candidate items
succeed and item `n`'s embedding or persist call raises, the caller receives
`\x7bsession_id, suggestions: [], error: message\x7d`; the `n` suggestions
already persisted for the earlier items remain in the store although they are
absent from the returned list, and the session record remains persisted. -/
theorem C10_failure_isolation (g : Graph) (user_id text session_id : String)
    (now : Nat) (sug_ids : Nat → String) (calls : String → Nat → LLMCall)
    (itemCalls : Nat → ItemOutcome) (sim : List ℚ → TaskNode → ℚ)
    (data : Option (List RawItem)) (items : List CleanedItem) (n : Nat)
    (msg : String)
    (hblank : pyBlank text = false)
    (huser : g.hasUser user_id = true)
    (hcalls : calls = fun _ _ => LLMCall.parsed data)
    (hval : validate_triage_response data = Except.ok items)
    (hok : ∀ j, j < n → (itemCalls j).isOk = true)
    (hfail : (itemCalls n).errMsg = some msg)
    (hn : n < items.length) :
    (run_triage g user_id text session_id now sug_ids calls itemCalls sim).2 =
      { session_id := session_id, suggestions := [], error := some msg } ∧
    (∃ pre : List SuggestionNode,
      (run_triage g user_id text session_id now sug_ids calls itemCalls
        sim).1.suggestions = g.suggestions ++ pre ∧
      pre.length = n) ∧
    (run_triage g user_id text session_id now sug_ids calls itemCalls
        sim).1.sessions =
      g.sessions ++
        [{ id := session_id, created_at := now, input_text := text,
           model := "claude-sonnet-4-6", prompt_version := "v1" }] := by
  subst hcalls
  have htbd : ∀ c : Option ContextData,
      (triage_brain_dump text c (fun _ _ => LLMCall.parsed data)).1 =
        Except.ok items := by
    intro c
    unfold triage_brain_dump
    rw [if_neg (by simp [hblank])]
    simp [runAttempt, hval]
  obtain ⟨g', pre, hloop, hsug, hlen, hsess⟩ :=
    triage_items_loop_fail user_id session_id now sug_ids itemCalls sim items n
      ((create_triage_session g user_id
        { id := session_id, created_at := now, input_text := text,
          model := "claude-sonnet-4-6", prompt_version := "v1" }).1)
      0 [] msg
      (by rw [create_triage_session_matched huser]; exact huser)
      (by rw [create_triage_session_matched huser]; simp)
      (by rw [create_triage_session_matched huser]; simp)
      (by intro j hj; simpa using hok j hj)
      (by simpa using hfail)
      hn
  have hrun : run_triage g user_id text session_id now sug_ids
      (fun _ _ => LLMCall.parsed data) itemCalls sim =
      (g', { session_id := session_id, suggestions := [], error := some msg }) := by
    unfold run_triage
    simp only [htbd, hloop]
  rw [hrun]
  refine ⟨rfl, ⟨pre, ?_, hlen⟩, ?_⟩
  · rw [hsug, create_triage_session_matched huser]
  · rw [hsess, create_triage_session_matched huser]

/-- Witness for C10: a concrete run whose second item's embedding call raises
returns the structured error while the first item's suggestion stays in the
store. -/
theorem C10_witness :
    (run_triage C6graph "u1" "Buy milk. Call mom." "sess" 5
        (fun n => "sug" ++ toString n) (fun _ _ => LLMCall.parsed C6data)
        (fun n => if n == 0 then ItemOutcome.ok [1]
                  else ItemOutcome.embedFail "Voyage AI request failed") (fun _ _ => 0)).2 =
      { session_id := "sess", suggestions := [],
        error := some "Voyage AI request failed" } ∧
    (∃ pre : List SuggestionNode,
      (run_triage C6graph "u1" "Buy milk. Call mom." "sess" 5
          (fun n => "sug" ++ toString n) (fun _ _ => LLMCall.parsed C6data)
          (fun n => if n == 0 then ItemOutcome.ok [1]
                    else ItemOutcome.embedFail "Voyage AI request failed")
          (fun _ _ => 0)).1.suggestions = C6graph.suggestions ++ pre ∧
      pre.length = 1) ∧
    (run_triage C6graph "u1" "Buy milk. Call mom." "sess" 5
        (fun n => "sug" ++ toString n) (fun _ _ => LLMCall.parsed C6data)
        (fun n => if n == 0 then ItemOutcome.ok [1]
                  else ItemOutcome.embedFail "Voyage AI request failed")
        (fun _ _ => 0)).1.sessions =
      C6graph.sessions ++
        [{ id := "sess", created_at := 5, input_text := "Buy milk. Call mom.",
           model := "claude-sonnet-4-6", prompt_version := "v1" }] :=
  C10_failure_isolation C6graph "u1" "Buy milk. Call mom." "sess" 5
    (fun n => "sug" ++ toString n) (fun _ _ => LLMCall.parsed C6data)
    (fun n => if n == 0 then ItemOutcome.ok [1]
              else ItemOutcome.embedFail "Voyage AI request failed")
    (fun _ _ => 0) C6data [C6clean1, C6clean2] 1 "Voyage AI request failed"
    (by decide) (by decide) rfl rfl (by decide) (by decide) (by decide)

end TaskTriage
